import Mathlib

/-!
The `wallet unvote` command of the ARK command line client.

A shallow embedding of `lib/commands/wallet/unvote.js`.  The command is one
`async` function whose body is a single `try` block followed by a `catch`
that prints the error message and sets the exit status.  Everything the
function talks to (the prompt, the node, the Ledger device, the `arkjs`
and `Joi` libraries, the output module) is another module, so the embedding
takes the answers of those modules as a `World` and returns, for a command
object, the ordered list of calls the function makes (its trace) together
with the exit status it leaves behind.
-/

namespace Unvote

/-! ## JavaScript values -/

/-- The JavaScript values the command inspects: option values coming from the
command line parser, answers of the prompt, and loosely typed fields of node
responses. -/
inductive JsVal where
  | undefined
  | null
  | bool (b : Bool)
  | num (n : Int)
  | str (s : String)
  deriving DecidableEq, Repr

/-- Truthiness, as tested by `if (v)`, `!v` and `v ? a : b`. -/
def JsVal.truthy : JsVal → Bool
  | .undefined => false
  | .null => false
  | .bool b => b
  | .num n => !(n == 0)
  | .str s => !(s == "")

/-- String conversion, as done by a template literal, by `new Error(v)` and by
a property key. -/
def JsVal.toStr : JsVal → String
  | .undefined => "undefined"
  | .null => "null"
  | .bool true => "true"
  | .bool false => "false"
  | .num n => toString n
  | .str s => s

/-- The method call `v.toString()`: a `TypeError` on `undefined` and `null`
(message as worded by the V8 releases the tool ran on). -/
def JsVal.toStringCall : JsVal → Except String String
  | .undefined => .error "Cannot read property 'toString' of undefined"
  | .null => .error "Cannot read property 'toString' of null"
  | v => .ok v.toStr

/-! ## Data -/

/-- The command object `cmd` handed over by the command line parser. -/
structure Cmd where
  network : JsVal
  node : JsVal
  format : JsVal
  interactive : JsVal
  passphrase : JsVal
  signature : JsVal
  verbose : JsVal
  ledger : JsVal
  deriving DecidableEq, Repr

/-- The answer of `input.getPrompt`: an object that may own a `passphrase`
and a `signature` property. -/
structure PromptResponse where
  passphrase : Option JsVal
  signature : Option JsVal
  deriving DecidableEq, Repr

/-- An account listed by the Ledger device. -/
structure Wallet where
  publicKey : String
  address : String
  deriving DecidableEq, Repr

/-- The object returned by `accountUtils.getDelegate`; a property that is
missing reads as `undefined`. -/
structure Delegate where
  publicKey : JsVal
  username : JsVal
  deriving DecidableEq, Repr

/-- The transaction object built by `arkjs.vote.createVote`.  `signature` and
`id` are `none` when the property is absent (after `delete`). -/
structure Transaction where
  senderPublicKey : JsVal
  recipientId : JsVal
  votes : List String
  signature : Option String
  id : Option String
  extra : List (String × JsVal)
  deriving DecidableEq, Repr

/-- The `data` of the node's answer to `network.postTransaction`; a field is
`none` when `hasOwnProperty` is false for it. -/
structure PostData where
  success : Option JsVal
  error : Option JsVal
  transactionIds : Option (List String)
  deriving DecidableEq, Repr

/-- The object handed to `output.showOutput`. -/
structure Result where
  delegate : JsVal
  transactionId : String
  deriving DecidableEq, Repr

/-- One call made by the command to another module, with its arguments. -/
inductive Event where
  | setFormat (format : JsVal)
  | ledgerIsSupported
  | getPrompt (promptPassphrase promptSignature : Bool)
  | joiValidate (passphrase secondSecret : JsVal)
  | setNetwork (net : JsVal)
  | setServer (node : JsVal)
  | getFromNode (url : String)
  | setNetworkConfig (config : JsVal)
  | connect (net : JsVal)
  | ledgerSetNetwork
  | ledgerConnect
  | getBip44Accounts
  | getLedgerWallet (wallets : List Wallet)
  | getAccountFromSeed (passphrase : JsVal) (version : Nat)
  | getDelegate (address : JsVal)
  | setNetworkVersion (version : Nat)
  | createVote (passphrase : JsVal) (votes : List String) (secondSecret : JsVal)
  | promptConfirmTransaction (message : String)
  | signTransaction (path : String) (tx : Transaction)
  | getId (tx : Transaction)
  | postTransaction (tx : Transaction)
  | broadcast (tx : Transaction)
  | setTitle (title : String)
  | showOutput (result : Result)
  | showError (message : String)
  deriving DecidableEq, Repr

/-- The modules the command requires.  A call that can throw answers with
`Except String`, the string being the `message` of the thrown error.  The
command makes each of these calls at most once in a run, so a function of the
arguments loses no behaviour.

* `networks` is `require('../../config/networks')`: `networks k` is the value
  of `networks[k]`.
* `netVersion` and `netSlip44` are what `network.network.version` and
  `network.network.slip44` read once the network is connected.
* `getAccountFromSeed` and `getId` are pure derivations of the cryptographic
  library and do not throw.
* `ledger.setNetwork`, `arkjs.crypto.setNetworkVersion` and the calls of the
  `output` module return nothing the command uses and do not throw, so they
  have no field here; they only appear in the trace. -/
structure World where
  networks : String → JsVal
  netVersion : Nat
  netSlip44 : Nat
  ledgerIsSupported : Except String Unit
  getPrompt : Bool → Bool → Except String PromptResponse
  setNetwork : JsVal → Except String Unit
  setServer : JsVal → Except String Unit
  getFromNode : String → Except String JsVal
  connect : JsVal → Except String Unit
  ledgerConnect : Except String Unit
  getBip44Accounts : Except String (List Wallet)
  getLedgerWallet : List Wallet → Except String Nat
  getAccountFromSeed : JsVal → Nat → String
  getDelegate : JsVal → Except String Delegate
  createVote : JsVal → List String → JsVal → Except String Transaction
  promptConfirmTransaction : String → Except String JsVal
  signTransaction : String → Transaction → Except String String
  getId : Transaction → String
  postTransaction : Transaction → Except String PostData
  broadcast : Transaction → Except String Unit

/-! ## Runs -/

/-- A piece of the `try` block: the calls it made, and either the value it
produced or the message of the error it threw. -/
structure Run (α : Type) where
  trace : List Event
  result : Except String α

namespace Run

/-- A step that makes no call and produces `a`. -/
def ret {α : Type} (a : α) : Run α := ⟨[], .ok a⟩

/-- The statement `throw new Error(msg)`. -/
def fail {α : Type} (msg : String) : Run α := ⟨[], .error msg⟩

/-- A call `e` to another module that answers `r`. -/
def call {α : Type} (e : Event) (r : Except String α) : Run α := ⟨[e], r⟩

/-- A call that cannot throw. -/
def emit (e : Event) : Run Unit := ⟨[e], .ok ()⟩

/-- A computation without calls that may throw. -/
def lift {α : Type} (r : Except String α) : Run α := ⟨[], r⟩

/-- Sequencing: a throw in `r` skips `k`. -/
def andThen {α β : Type} (r : Run α) (k : α → Run β) : Run β :=
  match r.result with
  | .error msg => ⟨r.trace, .error msg⟩
  | .ok a => ⟨r.trace ++ (k a).trace, (k a).result⟩

/-- The block `try { r } catch (err) { }`: whatever `r` throws is dropped. -/
def swallow (r : Run Unit) : Run Unit := ⟨r.trace, .ok ()⟩

instance : Monad Run where
  pure := ret
  bind := andThen

end Run

/-- What a run of the command leaves behind: the calls made, in order, and
`process.exitCode` (`none` when the command did not set it). -/
structure Outcome where
  trace : List Event
  exitCode : Option Nat
  deriving DecidableEq, Repr

/-! ## The command -/

/-- Line 21: `cmd.network ? cmd.network : 'mainnet'`. -/
def netOf (cmd : Cmd) : JsVal :=
  if cmd.network.truthy then cmd.network else .str "mainnet"

/-- Line 22: `cmd.node ? cmd.node : null`. -/
def nodeOf (cmd : Cmd) : JsVal :=
  if cmd.node.truthy then cmd.node else .null

/-- Line 23: `cmd.format ? cmd.format : 'json'`. -/
def formatOf (cmd : Cmd) : JsVal :=
  if cmd.format.truthy then cmd.format else .str "json"

/-- Line 24: `cmd.interactive ? cmd.interactive : false`. -/
def interactiveOf (cmd : Cmd) : JsVal :=
  if cmd.interactive.truthy then cmd.interactive else .bool false

/-- Line 25: `cmd.passphrase ? cmd.passphrase : false`. -/
def passphraseOf (cmd : Cmd) : JsVal :=
  if cmd.passphrase.truthy then cmd.passphrase else .bool false

/-- Line 26: `cmd.signature ? cmd.signature : null`. -/
def secondSecretOf (cmd : Cmd) : JsVal :=
  if cmd.signature.truthy then cmd.signature else .null

/-- The schema of lines 11-14 applied to `{passphrase, secondSecret}`:
`passphrase` must be a non-empty string, `secondSecret` a string, which may
be empty. -/
def joiValid (passphrase secondSecret : JsVal) : Bool :=
  match passphrase, secondSecret with
  | .str p, .str _ => !(p == "")
  | _, _ => false

/-- Lines 73-80: `Joi.validate` with a callback that throws on an error. -/
def joiValidate (passphrase secondSecret : JsVal) : Except String Unit :=
  if joiValid passphrase secondSecret then .ok ()
  else .error "The passphrase must be a string."

/-- Lines 48-58: what to prompt for; in ledger mode the device is tested
first and the passphrase is the placeholder `'pass'`.  Produces
`(passphrase, promptPassphrase, promptSignature)`. -/
def promptFlags (w : World) (cmd : Cmd) : Run (JsVal × Bool × Bool) :=
  if !cmd.ledger.truthy then
    Run.ret (passphraseOf cmd,
      !cmd.passphrase.truthy || cmd.passphrase == .bool true,
      cmd.signature == .bool true)
  else do
    Run.call .ledgerIsSupported w.ledgerIsSupported
    Run.ret (JsVal.str "pass", false, false)

/-- Lines 63-65 and 67-69: an answer the prompt response owns replaces the
current value, after `.toString()`. -/
def answered (current : JsVal) (answer : Option JsVal) : Except String JsVal :=
  match answer with
  | some v =>
    match v.toStringCall with
    | .ok s => .ok (.str s)
    | .error msg => .error msg
  | none => .ok current

/-- Lines 46-80: decide what to prompt for, prompt, and validate.  Produces
`passphrase` and `secondSecret`. -/
def gatherInput (w : World) (cmd : Cmd) : Run (JsVal × JsVal) := do
  let (passphrase, promptPassphrase, promptSignature) ← promptFlags w cmd
  let inputResponse ←
    Run.call (.getPrompt promptPassphrase promptSignature)
      (w.getPrompt promptPassphrase promptSignature)
  let passphrase ← Run.lift (answered passphrase inputResponse.passphrase)
  let secondSecret ← Run.lift (answered (secondSecretOf cmd) inputResponse.signature)
  let _secondSecret := if secondSecret = .null then JsVal.str "" else secondSecret
  Run.call (.joiValidate passphrase _secondSecret) (joiValidate passphrase _secondSecret)
  Run.ret (passphrase, secondSecret)

/-- Lines 82-95: reject an unknown network, select the network, re-target to
an explicit node when one is given, connect. -/
def connectNetwork (w : World) (cmd : Cmd) : Run Unit := do
  let net := netOf cmd
  let node := nodeOf cmd
  if !(w.networks net.toStr).truthy then
    Run.fail ("Unknown network: " ++ net.toStr)
  else do
    Run.call (.setNetwork net) (w.setNetwork net)
    if node.truthy then do
      Run.call (.setServer node) (w.setServer node)
      let config ← Run.call (.getFromNode "/api/loader/autoconfigure")
        (w.getFromNode "/api/loader/autoconfigure")
      Run.emit (.setNetworkConfig config)
    else
      Run.ret ()
    Run.call (.connect net) (w.connect net)

/-- Lines 108-110: `wallets[i].publicKey` and `wallets[i].address`; reading a
property of `undefined` is a `TypeError`. -/
def walletAt (wallets : List Wallet) (i : Nat) : Except String Wallet :=
  match wallets.get? i with
  | some wallet => .ok wallet
  | none => .error "Cannot read property 'publicKey' of undefined"

/-- Lines 97-114: the signing address, and in ledger mode the public key and
the selected index.  Produces `(address, publicKey, i)`; the last two stay
`undefined` in passphrase mode. -/
def resolveIdentity (w : World) (cmd : Cmd) (passphrase : JsVal) :
    Run (JsVal × JsVal × JsVal) := do
  if cmd.ledger.truthy then do
    Run.emit .ledgerSetNetwork
    Run.call .ledgerConnect w.ledgerConnect
    let wallets ← Run.call .getBip44Accounts w.getBip44Accounts
    let i ← Run.call (.getLedgerWallet wallets) (w.getLedgerWallet wallets)
    let wallet ← Run.lift (walletAt wallets i)
    Run.ret (JsVal.str wallet.address, JsVal.str wallet.publicKey, JsVal.num i)
  else do
    Run.emit (.getAccountFromSeed passphrase w.netVersion)
    Run.ret (JsVal.str (w.getAccountFromSeed passphrase w.netVersion),
      JsVal.undefined, JsVal.undefined)

/-- Line 117: the vote list, a single removal entry. -/
def voteEntry (delegates : Delegate) : List String :=
  ["-" ++ delegates.publicKey.toStr]

/-- Lines 115-121: look up the voted delegate and create the transaction. -/
def buildTransaction (w : World) (passphrase secondSecret address : JsVal) :
    Run (Delegate × Transaction) := do
  let delegates ← Run.call (.getDelegate address) (w.getDelegate address)
  let delegate := voteEntry delegates
  Run.emit (.setNetworkVersion w.netVersion)
  let unvotetransaction ←
    Run.call (.createVote passphrase delegate secondSecret)
      (w.createVote passphrase delegate secondSecret)
  Run.ret (delegates, unvotetransaction)

/-- Line 126: the question put to the operator. -/
def confirmMessage (delegates : Delegate) : String :=
  "Removing vote for " ++ delegates.username.toStr ++ " now. Are you sure? Y(es)/N(o)"

/-- Lines 123-131: in interactive mode, ask for confirmation and throw when
the answer is falsy. -/
def confirmGate (w : World) (cmd : Cmd) (delegates : Delegate) : Run Unit := do
  if (interactiveOf cmd).truthy then do
    let confirm ←
      Run.call (.promptConfirmTransaction (confirmMessage delegates))
        (w.promptConfirmTransaction (confirmMessage delegates))
    if !confirm.truthy then
      Run.fail "Transaction cancelled by user."
    else
      Run.ret ()
  else
    Run.ret ()

/-- Line 136: the derivation path handed to the device. -/
def derivationPath (slip44 : Nat) (i : JsVal) : String :=
  "44'/" ++ toString slip44 ++ "'/" ++ i.toStr ++ "'/0/0"

/-- Lines 134-138: the transaction handed to the device, with `signature`
and `id` deleted and sender and recipient replaced by the Ledger account. -/
def unsignedOf (publicKey address : JsVal) (tx : Transaction) : Transaction :=
  { tx with signature := none, id := none, senderPublicKey := publicKey, recipientId := address }

/-- Line 140: `unvotetransaction.signature = signature`. -/
def withSignature (tx : Transaction) (signature : String) : Transaction :=
  { tx with signature := some signature }

/-- Line 141: `unvotetransaction.id = arkjs.crypto.getId(unvotetransaction)`. -/
def withId (w : World) (tx : Transaction) : Transaction :=
  { tx with id := some (w.getId tx) }

/-- Lines 133-142: in ledger mode, strip signature and id, set sender and
recipient, have the device sign, and recompute the id. -/
def ledgerSign (w : World) (cmd : Cmd) (publicKey address i : JsVal)
    (unvotetransaction : Transaction) : Run Transaction := do
  if cmd.ledger.truthy then do
    let path := derivationPath w.netSlip44 i
    let unsigned := unsignedOf publicKey address unvotetransaction
    let signature ← Run.call (.signTransaction path unsigned) (w.signTransaction path unsigned)
    let signed := withSignature unsigned signature
    Run.emit (.getId signed)
    Run.ret (withId w signed)
  else
    Run.ret unvotetransaction

/-- Line 145: `!data.hasOwnProperty('success') || !data.success`. -/
def rejected (data : PostData) : Bool :=
  match data.success with
  | none => true
  | some s => !s.truthy

/-- Lines 146-147: the message of the rejection. -/
def rejectionMessage (data : PostData) : String :=
  match data.error with
  | some e => if e.truthy then e.toStr else "Failed to post transaction to the network."
  | none => "Failed to post transaction to the network."

/-- Lines 144-169: post the transaction, read the answer, broadcast and
report, or throw. -/
def submit (w : World) (delegates : Delegate) (unvotetransaction : Transaction) :
    Run Unit := do
  let data ←
    Run.call (.postTransaction unvotetransaction) (w.postTransaction unvotetransaction)
  if rejected data then
    Run.fail (rejectionMessage data)
  else
    match data.transactionIds with
    | some (transactionId :: _) => do
      Run.swallow (Run.call (.broadcast unvotetransaction) (w.broadcast unvotetransaction))
      Run.emit (.setTitle "ARK Unvote delegate")
      Run.emit (.showOutput { delegate := delegates.username, transactionId := transactionId })
    | _ => Run.fail "Did not receive a transactionId, check status in wallet."

/-- Lines 43-169: the `try` block. -/
def body (w : World) (cmd : Cmd) : Run Unit := do
  Run.emit (.setFormat (formatOf cmd))
  let (passphrase, secondSecret) ← gatherInput w cmd
  connectNetwork w cmd
  let (address, publicKey, i) ← resolveIdentity w cmd passphrase
  let (delegates, unvotetransaction) ← buildTransaction w passphrase secondSecret address
  confirmGate w cmd delegates
  let unvotetransaction ← ledgerSign w cmd publicKey address i unvotetransaction
  submit w delegates unvotetransaction

/-- The exported function: the `try` block, and the `catch` of lines 170-173
that shows the message and sets the exit status.  (Lines 28-41 only assign
logger fields of other modules and make no call.) -/
def unvote (w : World) (cmd : Cmd) : Outcome :=
  match (body w cmd).result with
  | .ok _ => ⟨(body w cmd).trace, none⟩
  | .error msg => ⟨(body w cmd).trace ++ [.showError msg], some 1⟩

/-! ## Vocabulary of the properties -/

/-- The section of the `try` block an event belongs to. -/
def Event.stage : Event → Nat
  | .setFormat _ => 0
  | .ledgerIsSupported => 1
  | .getPrompt _ _ => 1
  | .joiValidate _ _ => 1
  | .setNetwork _ => 2
  | .setServer _ => 2
  | .getFromNode _ => 2
  | .setNetworkConfig _ => 2
  | .connect _ => 2
  | .ledgerSetNetwork => 3
  | .ledgerConnect => 3
  | .getBip44Accounts => 3
  | .getLedgerWallet _ => 3
  | .getAccountFromSeed _ _ => 3
  | .getDelegate _ => 4
  | .setNetworkVersion _ => 4
  | .createVote _ _ _ => 4
  | .promptConfirmTransaction _ => 5
  | .signTransaction _ _ => 6
  | .getId _ => 6
  | .postTransaction _ => 7
  | .broadcast _ => 7
  | .setTitle _ => 7
  | .showOutput _ => 7
  | .showError _ => 8

/-- Whether the step recorded as `e` failed in world `w`: the call threw, or
the check made on its answer throws.  The peer broadcast never counts, and
the output calls and pure derivations cannot fail. -/
def stepFailed (w : World) : Event → Bool
  | .ledgerIsSupported =>
    match w.ledgerIsSupported with
    | .error _ => true
    | .ok _ => false
  | .getPrompt pp ps =>
    match w.getPrompt pp ps with
    | .error _ => true
    | .ok r =>
      (r.passphrase = some .undefined || r.passphrase = some .null) ||
      (r.signature = some .undefined || r.signature = some .null)
  | .joiValidate p s => !joiValid p s
  | .setNetwork net =>
    match w.setNetwork net with
    | .error _ => true
    | .ok _ => false
  | .setServer node =>
    match w.setServer node with
    | .error _ => true
    | .ok _ => false
  | .getFromNode url =>
    match w.getFromNode url with
    | .error _ => true
    | .ok _ => false
  | .connect net =>
    match w.connect net with
    | .error _ => true
    | .ok _ => false
  | .ledgerConnect =>
    match w.ledgerConnect with
    | .error _ => true
    | .ok _ => false
  | .getBip44Accounts =>
    match w.getBip44Accounts with
    | .error _ => true
    | .ok _ => false
  | .getLedgerWallet wallets =>
    match w.getLedgerWallet wallets with
    | .error _ => true
    | .ok i => decide (wallets.length ≤ i)
  | .getDelegate address =>
    match w.getDelegate address with
    | .error _ => true
    | .ok _ => false
  | .createVote p v s =>
    match w.createVote p v s with
    | .error _ => true
    | .ok _ => false
  | .promptConfirmTransaction message =>
    match w.promptConfirmTransaction message with
    | .error _ => true
    | .ok confirm => !confirm.truthy
  | .signTransaction path tx =>
    match w.signTransaction path tx with
    | .error _ => true
    | .ok _ => false
  | .postTransaction tx =>
    match w.postTransaction tx with
    | .error _ => true
    | .ok data => rejected data || (data.transactionIds = none || data.transactionIds = some [])
  | _ => false

/-- The calls to the node and to the peers made through the `network`
service. -/
def Event.isNetworkCall : Event → Bool
  | .setNetwork _ => true
  | .setServer _ => true
  | .getFromNode _ => true
  | .connect _ => true
  | .postTransaction _ => true
  | .broadcast _ => true
  | _ => false

/-- The calls to the Ledger device. -/
def Event.isDeviceCall : Event → Bool
  | .ledgerIsSupported => true
  | .ledgerConnect => true
  | .getBip44Accounts => true
  | .signTransaction _ _ => true
  | _ => false

/-! ## Sample worlds -/

/-- A transaction as `createVote` returns it, signed and with an id. -/
def sampleTx (votes : List String) : Transaction :=
  { senderPublicKey := .str "S", recipientId := .str "A", votes := votes,
    signature := some "sig", id := some "id0", extra := [] }

/-- A world where only `mainnet` is registered, every call succeeds, the
address has voted for delegate `u1` with public key `P`, the operator confirms
and the node accepts with id `tx123`. -/
def sampleWorld : World where
  networks := fun k => if k = "mainnet" then .bool true else .undefined
  netVersion := 23
  netSlip44 := 111
  ledgerIsSupported := .ok ()
  getPrompt := fun _ _ => .ok { passphrase := none, signature := none }
  setNetwork := fun _ => .ok ()
  setServer := fun _ => .ok ()
  getFromNode := fun _ => .ok .undefined
  connect := fun _ => .ok ()
  ledgerConnect := .ok ()
  getBip44Accounts :=
    .ok [{ publicKey := "K0", address := "A0" }, { publicKey := "K1", address := "A1" }]
  getLedgerWallet := fun _ => .ok 1
  getAccountFromSeed := fun _ _ => "A"
  getDelegate := fun _ => .ok { publicKey := .str "P", username := .str "u1" }
  createVote := fun _ votes _ => .ok (sampleTx votes)
  promptConfirmTransaction := fun _ => .ok (.bool true)
  signTransaction := fun _ _ => .ok "ledgersig"
  getId := fun _ => "id1"
  postTransaction := fun _ =>
    .ok { success := some (.bool true), error := none, transactionIds := some ["tx123"] }
  broadcast := fun _ => .ok ()

/-- The command `wallet unvote --passphrase secret`. -/
def sampleCmd : Cmd :=
  { network := .undefined, node := .undefined, format := .undefined,
    interactive := .undefined, passphrase := .str "secret", signature := .undefined,
    verbose := .undefined, ledger := .undefined }

/-- The command `wallet unvote --ledger`. -/
def ledgerCmd : Cmd := { sampleCmd with passphrase := .undefined, ledger := .bool true }

/-- The command `wallet unvote --passphrase secret --interactive`. -/
def interactiveCmd : Cmd := { sampleCmd with interactive := .bool true }

/-- The sample world with an operator who answers no. -/
def decliningWorld : World :=
  { sampleWorld with promptConfirmTransaction := fun _ => .ok (.bool false) }

/-- The command `wallet unvote --ledger --network devnet`; `devnet` is not
registered in the sample world. -/
def unknownLedgerCmd : Cmd := { ledgerCmd with network := .str "devnet" }

/-- The command `wallet unvote --network devnet`, without a passphrase. -/
def unknownPromptCmd : Cmd :=
  { sampleCmd with network := .str "devnet", passphrase := .undefined }

/-- The sample world with an operator who enters an empty passphrase. -/
def emptyPassphraseWorld : World :=
  { sampleWorld with
    getPrompt := fun _ _ => .ok { passphrase := some (.str ""), signature := none } }

/-- The sample world with a node that accepts without giving an id. -/
def noIdWorld : World :=
  { sampleWorld with
    postTransaction := fun _ =>
      .ok { success := some (.bool true), error := none, transactionIds := some [] } }

/-- The sample world with a node that answers with an error and no `success`
flag, although it lists an id. -/
def rejectingWorld : World :=
  { sampleWorld with
    postTransaction := fun _ =>
      .ok { success := none, error := some (.str "Insufficient balance"),
            transactionIds := some ["tx123"] } }

/-- The sample world with a lookup that returns an object without a public
key, for an address that has not voted. -/
def noVoteWorld : World :=
  { sampleWorld with
    getDelegate := fun _ => .ok { publicKey := .undefined, username := .undefined } }

/-- The sample world with a lookup that throws. -/
def failingLookupWorld : World :=
  { sampleWorld with getDelegate := fun _ => .error "Failed to get delegate." }

/-! ## Sequencing lemmas -/

theorem bind_eq {α β : Type} (r : Run α) (k : α → Run β) :
    (r >>= k) = Run.andThen r k := rfl

theorem andThen_of_error {α β : Type} {r : Run α} {k : α → Run β} {m : String}
    (h : r.result = .error m) : Run.andThen r k = ⟨r.trace, .error m⟩ := by
  simp [Run.andThen, h]

theorem andThen_of_ok {α β : Type} {r : Run α} {k : α → Run β} {a : α}
    (h : r.result = .ok a) : Run.andThen r k = ⟨r.trace ++ (k a).trace, (k a).result⟩ := by
  simp [Run.andThen, h]

theorem emit_andThen {β : Type} (e : Event) (k : Unit → Run β) :
    Run.andThen (Run.emit e) k = ⟨e :: (k ()).trace, (k ()).result⟩ := by
  simp [Run.andThen, Run.emit]

theorem andThen_mk_ok {α β : Type} (t : List Event) (a : α) (k : α → Run β) :
    Run.andThen ⟨t, .ok a⟩ k = ⟨t ++ (k a).trace, (k a).result⟩ := rfl

theorem andThen_mk_error {α β : Type} (t : List Event) (m : String) (k : α → Run β) :
    Run.andThen ⟨t, .error m⟩ k = ⟨t, .error m⟩ := rfl

/-! ## The input stage -/

theorem promptFlags_cases (w : World) (cmd : Cmd) :
    (cmd.ledger.truthy = false ∧ ∃ v, promptFlags w cmd = ⟨[], .ok v⟩) ∨
    (cmd.ledger.truthy = true ∧ ∃ m, w.ledgerIsSupported = .error m ∧
      promptFlags w cmd = ⟨[.ledgerIsSupported], .error m⟩) ∨
    (cmd.ledger.truthy = true ∧ w.ledgerIsSupported = .ok () ∧
      promptFlags w cmd = ⟨[.ledgerIsSupported], .ok (.str "pass", false, false)⟩) := by
  unfold promptFlags
  cases hl : cmd.ledger.truthy
  · left
    simp [Run.ret]
  · right
    rcases hs : w.ledgerIsSupported with m | u
    · left
      simp [bind_eq, Run.andThen, Run.call]
    · right
      simp [bind_eq, Run.andThen, Run.call, Run.ret]

theorem answered_error {current : JsVal} {answer : Option JsVal} {m : String}
    (h : answered current answer = .error m) :
    answer = some .undefined ∨ answer = some .null := by
  unfold answered at h
  rcases answer with _ | v
  · simp at h
  · cases v <;> simp_all [JsVal.toStringCall]

theorem answered_ok {current : JsVal} {answer : Option JsVal} {v : JsVal}
    (h : answered current answer = .ok v) :
    answer ≠ some .undefined ∧ answer ≠ some .null := by
  unfold answered at h
  rcases answer with _ | v
  · simp
  · cases v <;> simp_all [JsVal.toStringCall]

theorem joiValidate_error {p s : JsVal} {m : String} (h : joiValidate p s = .error m) :
    joiValid p s = false := by
  unfold joiValidate at h
  cases hv : joiValid p s <;> simp_all

theorem joiValidate_ok {p s : JsVal} {u : Unit} (h : joiValidate p s = .ok u) :
    joiValid p s = true := by
  unfold joiValidate at h
  cases hv : joiValid p s <;> simp_all

/-- After the device test, the input stage prompts, reads the answers and
validates; it fails exactly when one of these steps fails. -/
theorem gatherRest_failed (w : World) (cmd : Cmd) (p0 : JsVal) (pp ps : Bool) :
    let rest : Run (JsVal × JsVal) :=
      Run.andThen (Run.call (.getPrompt pp ps) (w.getPrompt pp ps)) fun inputResponse =>
      Run.andThen (Run.lift (answered p0 inputResponse.passphrase)) fun passphrase =>
      Run.andThen (Run.lift (answered (secondSecretOf cmd) inputResponse.signature))
        fun secondSecret =>
      Run.andThen (Run.call
          (.joiValidate passphrase (if secondSecret = .null then JsVal.str "" else secondSecret))
          (joiValidate passphrase (if secondSecret = .null then JsVal.str "" else secondSecret)))
        fun _ => Run.ret (passphrase, secondSecret)
    (∀ m, rest.result = .error m → ∃ e ∈ rest.trace, stepFailed w e = true) ∧
    (∀ v, rest.result = .ok v → ∀ e ∈ rest.trace, stepFailed w e = false) ∧
    (∀ e ∈ rest.trace, e.stage = 1 ∧ e ≠ .ledgerIsSupported) := by
  intro rest
  show (∀ m, rest.result = .error m → ∃ e ∈ rest.trace, stepFailed w e = true) ∧
    (∀ v, rest.result = .ok v → ∀ e ∈ rest.trace, stepFailed w e = false) ∧
    (∀ e ∈ rest.trace, e.stage = 1 ∧ e ≠ .ledgerIsSupported)
  rcases hp : w.getPrompt pp ps with m | r
  · have hr : rest = ⟨[.getPrompt pp ps], .error m⟩ := by
      simp only [rest, Run.call, hp, andThen_mk_error]
    simp [hr, stepFailed, hp, Event.stage]
  · rcases h1 : answered p0 r.passphrase with m | p
    · have hr : rest = ⟨[.getPrompt pp ps], .error m⟩ := by
        simp only [rest, Run.call, Run.lift, hp, h1, andThen_mk_ok, andThen_mk_error,
          List.append_nil]
      have := answered_error h1
      simp [hr, stepFailed, hp, Event.stage, this]
    · rcases h2 : answered (secondSecretOf cmd) r.signature with m | s
      · have hr : rest = ⟨[.getPrompt pp ps], .error m⟩ := by
          simp only [rest, Run.call, Run.lift, hp, h1, h2, andThen_mk_ok, andThen_mk_error,
            List.append_nil]
        have := answered_error h2
        simp [hr, stepFailed, hp, Event.stage, this]
      · have a1 := answered_ok h1
        have a2 := answered_ok h2
        rcases h3 : joiValidate p (if s = .null then JsVal.str "" else s) with m | u
        · have hr : rest = ⟨[.getPrompt pp ps,
              .joiValidate p (if s = .null then JsVal.str "" else s)], .error m⟩ := by
            simp only [rest, Run.call, Run.lift, hp, h1, h2, h3, andThen_mk_ok,
              andThen_mk_error, List.append_nil, List.nil_append, List.singleton_append]
          have := joiValidate_error h3
          simp [hr, stepFailed, hp, Event.stage, this]
        · have hr : rest = ⟨[.getPrompt pp ps,
              .joiValidate p (if s = .null then JsVal.str "" else s)], .ok (p, s)⟩ := by
            simp only [rest, Run.call, Run.lift, Run.ret, hp, h1, h2, h3, andThen_mk_ok,
              andThen_mk_error, List.append_nil, List.nil_append, List.singleton_append]
          have := joiValidate_ok h3
          simp [hr, stepFailed, hp, Event.stage, this, a1, a2]

theorem gatherInput_spec (w : World) (cmd : Cmd) :
    (∀ m, (gatherInput w cmd).result = .error m →
      ∃ e ∈ (gatherInput w cmd).trace, stepFailed w e = true) ∧
    (∀ v, (gatherInput w cmd).result = .ok v →
      ∀ e ∈ (gatherInput w cmd).trace, stepFailed w e = false) ∧
    (∀ e ∈ (gatherInput w cmd).trace,
      e.stage = 1 ∧ (e = .ledgerIsSupported → cmd.ledger.truthy = true)) := by
  unfold gatherInput
  simp only [bind_eq]
  rcases promptFlags_cases w cmd with ⟨hl, ⟨p0, pp, ps⟩, hf⟩ | ⟨hl, m, hs, hf⟩ | ⟨hl, hs, hf⟩
  · rw [hf, andThen_mk_ok]
    obtain ⟨r1, r2, r3⟩ := gatherRest_failed w cmd p0 pp ps
    simp only [List.nil_append]
    refine ⟨r1, r2, fun e he => ⟨(r3 e he).1, fun h => absurd h (r3 e he).2⟩⟩
  · rw [hf, andThen_mk_error]
    simp [stepFailed, hs, Event.stage, hl]
  · rw [hf, andThen_mk_ok]
    obtain ⟨r1, r2, r3⟩ := gatherRest_failed w cmd (.str "pass") false false
    simp only [List.singleton_append, List.mem_cons]
    refine ⟨?_, ?_, ?_⟩
    · intro m hm
      obtain ⟨e, he, hfail⟩ := r1 m hm
      exact ⟨e, Or.inr he, hfail⟩
    · intro v hv e he
      rcases he with rfl | he
      · simp [stepFailed, hs]
      · exact r2 v hv e he
    · intro e he
      rcases he with rfl | he
      · simp [Event.stage, hl]
      · exact ⟨(r3 e he).1, fun h => absurd h (r3 e he).2⟩

/-! ## The network stage -/

theorem connectNetwork_unknown (w : World) (cmd : Cmd)
    (h : (w.networks (netOf cmd).toStr).truthy = false) :
    connectNetwork w cmd = ⟨[], .error ("Unknown network: " ++ (netOf cmd).toStr)⟩ := by
  simp [connectNetwork, h, Run.fail]

theorem connectNetwork_spec (w : World) (cmd : Cmd) :
    (∀ m, (connectNetwork w cmd).result = .error m →
      (w.networks (netOf cmd).toStr).truthy = false ∨
      ∃ e ∈ (connectNetwork w cmd).trace, stepFailed w e = true) ∧
    (∀ v, (connectNetwork w cmd).result = .ok v →
      (w.networks (netOf cmd).toStr).truthy = true ∧
      ∀ e ∈ (connectNetwork w cmd).trace, stepFailed w e = false) ∧
    (∀ e ∈ (connectNetwork w cmd).trace, e.stage = 2) := by
  cases hk : (w.networks (netOf cmd).toStr).truthy
  · simp [connectNetwork_unknown w cmd hk, hk]
  · simp only [connectNetwork, hk, Bool.not_true, Bool.false_eq_true, if_false, bind_eq,
      Run.call, Run.emit, Run.ret]
    rcases h1 : w.setNetwork (netOf cmd) with m | u
    · simp [andThen_mk_error, stepFailed, h1, Event.stage]
    · cases hn : (nodeOf cmd).truthy
      · rcases h4 : w.connect (netOf cmd) with m | u
        · simp [andThen_mk_error, andThen_mk_ok, stepFailed, h1, h4, hn, Event.stage]
        · simp [andThen_mk_error, andThen_mk_ok, stepFailed, h1, h4, hn, Event.stage]
      · rcases h2 : w.setServer (nodeOf cmd) with m | u
        · simp [andThen_mk_error, andThen_mk_ok, stepFailed, h1, h2, Event.stage]
        · rcases h3 : w.getFromNode "/api/loader/autoconfigure" with m | c
          · simp [andThen_mk_error, andThen_mk_ok, stepFailed, h1, h2, h3, Event.stage]
          · rcases h4 : w.connect (netOf cmd) with m | u
            · simp [andThen_mk_error, andThen_mk_ok, stepFailed, h1, h2, h3, h4, Event.stage]
            · simp [andThen_mk_error, andThen_mk_ok, stepFailed, h1, h2, h3, h4, Event.stage]

/-! ## The identity stage -/

theorem walletAt_ok {wallets : List Wallet} {i : Nat} {wallet : Wallet}
    (h : walletAt wallets i = .ok wallet) : wallets.get? i = some wallet := by
  unfold walletAt at h
  split at h <;> simp_all

theorem walletAt_error {wallets : List Wallet} {i : Nat} {m : String}
    (h : walletAt wallets i = .error m) : wallets.length ≤ i := by
  unfold walletAt at h
  split at h
  · simp at h
  · rename_i hn
    exact List.get?_eq_none.mp hn

theorem resolveIdentity_spec (w : World) (cmd : Cmd) (p : JsVal) :
    (∀ m, (resolveIdentity w cmd p).result = .error m →
      ∃ e ∈ (resolveIdentity w cmd p).trace, stepFailed w e = true) ∧
    (∀ v, (resolveIdentity w cmd p).result = .ok v →
      ∀ e ∈ (resolveIdentity w cmd p).trace, stepFailed w e = false) ∧
    (∀ e ∈ (resolveIdentity w cmd p).trace, e.stage = 3) ∧
    (∀ a pk i, (resolveIdentity w cmd p).result = .ok (a, pk, i) →
      (cmd.ledger.truthy = false ∧ a = .str (w.getAccountFromSeed p w.netVersion) ∧
        (resolveIdentity w cmd p).trace = [.getAccountFromSeed p w.netVersion]) ∨
      (cmd.ledger.truthy = true ∧ ∃ wallets n wallet,
        (resolveIdentity w cmd p).trace =
          [.ledgerSetNetwork, .ledgerConnect, .getBip44Accounts, .getLedgerWallet wallets] ∧
        w.getLedgerWallet wallets = .ok n ∧ wallets.get? n = some wallet ∧
        a = .str wallet.address ∧ pk = .str wallet.publicKey ∧ i = .num n)) := by
  cases hl : cmd.ledger.truthy
  · simp [resolveIdentity, hl, bind_eq, Run.emit, Run.ret, Run.andThen, stepFailed, Event.stage]
  · simp only [resolveIdentity, hl, if_true, bind_eq, Run.call, Run.emit, Run.ret, Run.lift,
      andThen_mk_ok]
    rcases h1 : w.ledgerConnect with m | u
    · simp [andThen_mk_error, stepFailed, h1, Event.stage]
    · rcases h2 : w.getBip44Accounts with m | wallets
      · simp [andThen_mk_error, andThen_mk_ok, stepFailed, h1, h2, Event.stage]
      · rcases h3 : w.getLedgerWallet wallets with m | n
        · simp [andThen_mk_error, andThen_mk_ok, stepFailed, h1, h2, h3, Event.stage]
        · rcases h4 : walletAt wallets n with m | wallet
          · have := walletAt_error h4
            simp [andThen_mk_error, andThen_mk_ok, stepFailed, h1, h2, h3, h4, Event.stage, this]
          · have := walletAt_ok h4
            have hlt : n < wallets.length := by
              by_contra hc
              rw [List.get?_eq_none.mpr (by omega)] at this
              simp at this
            have hw : wallets[n] = wallet := by
              simpa [List.getElem?_eq_getElem hlt] using this
            simp [andThen_mk_error, andThen_mk_ok, stepFailed, h1, h2, h3, h4, Event.stage, hlt, hw]

/-! ## Building, confirming, signing, submitting -/

theorem buildTransaction_cases (w : World) (p s a : JsVal) :
    (∃ m, w.getDelegate a = .error m ∧
      buildTransaction w p s a = ⟨[.getDelegate a], .error m⟩) ∨
    (∃ d m, w.getDelegate a = .ok d ∧ w.createVote p (voteEntry d) s = .error m ∧
      buildTransaction w p s a =
        ⟨[.getDelegate a, .setNetworkVersion w.netVersion, .createVote p (voteEntry d) s],
          .error m⟩) ∨
    (∃ d tx, w.getDelegate a = .ok d ∧ w.createVote p (voteEntry d) s = .ok tx ∧
      buildTransaction w p s a =
        ⟨[.getDelegate a, .setNetworkVersion w.netVersion, .createVote p (voteEntry d) s],
          .ok (d, tx)⟩) := by
  simp only [buildTransaction, bind_eq, Run.call, Run.emit, Run.ret]
  rcases h1 : w.getDelegate a with m | d
  · simp [andThen_mk_error]
  · rcases h2 : w.createVote p (voteEntry d) s with m | tx
    · simp [andThen_mk_error, andThen_mk_ok, h2]
    · simp [andThen_mk_error, andThen_mk_ok, h2]

theorem confirmGate_cases (w : World) (cmd : Cmd) (d : Delegate) :
    ((interactiveOf cmd).truthy = false ∧ confirmGate w cmd d = ⟨[], .ok ()⟩) ∨
    ((interactiveOf cmd).truthy = true ∧
      ((∃ m, w.promptConfirmTransaction (confirmMessage d) = .error m ∧
        confirmGate w cmd d = ⟨[.promptConfirmTransaction (confirmMessage d)], .error m⟩) ∨
      (∃ v, w.promptConfirmTransaction (confirmMessage d) = .ok v ∧ v.truthy = false ∧
        confirmGate w cmd d = ⟨[.promptConfirmTransaction (confirmMessage d)],
          .error "Transaction cancelled by user."⟩) ∨
      (∃ v, w.promptConfirmTransaction (confirmMessage d) = .ok v ∧ v.truthy = true ∧
        confirmGate w cmd d = ⟨[.promptConfirmTransaction (confirmMessage d)], .ok ()⟩))) := by
  cases hi : (interactiveOf cmd).truthy
  · simp [confirmGate, hi, Run.ret]
  · simp only [confirmGate, hi, if_true, bind_eq, Run.call, Run.fail, Run.ret]
    rcases h1 : w.promptConfirmTransaction (confirmMessage d) with m | v
    · simp [andThen_mk_error]
    · cases hv : v.truthy <;> simp [andThen_mk_ok, hv]

theorem ledgerSign_cases (w : World) (cmd : Cmd) (pk a i : JsVal) (tx : Transaction) :
    (cmd.ledger.truthy = false ∧ ledgerSign w cmd pk a i tx = ⟨[], .ok tx⟩) ∨
    (cmd.ledger.truthy = true ∧
      ((∃ m, w.signTransaction (derivationPath w.netSlip44 i) (unsignedOf pk a tx) = .error m ∧
        ledgerSign w cmd pk a i tx =
          ⟨[.signTransaction (derivationPath w.netSlip44 i) (unsignedOf pk a tx)], .error m⟩) ∨
      (∃ sig, w.signTransaction (derivationPath w.netSlip44 i) (unsignedOf pk a tx) = .ok sig ∧
        ledgerSign w cmd pk a i tx =
          ⟨[.signTransaction (derivationPath w.netSlip44 i) (unsignedOf pk a tx),
              .getId (withSignature (unsignedOf pk a tx) sig)],
            .ok (withId w (withSignature (unsignedOf pk a tx) sig))⟩))) := by
  cases hl : cmd.ledger.truthy
  · simp [ledgerSign, hl, Run.ret]
  · simp only [ledgerSign, hl, if_true, bind_eq, Run.call, Run.emit, Run.ret]
    rcases h1 : w.signTransaction (derivationPath w.netSlip44 i) (unsignedOf pk a tx)
      with m | sig
    · simp [andThen_mk_error]
    · simp [andThen_mk_ok]

theorem submit_cases (w : World) (d : Delegate) (tx : Transaction) :
    (∃ m, w.postTransaction tx = .error m ∧ submit w d tx = ⟨[.postTransaction tx], .error m⟩) ∨
    (∃ data, w.postTransaction tx = .ok data ∧ rejected data = true ∧
      submit w d tx = ⟨[.postTransaction tx], .error (rejectionMessage data)⟩) ∨
    (∃ data, w.postTransaction tx = .ok data ∧ rejected data = false ∧
      (data.transactionIds = none ∨ data.transactionIds = some []) ∧
      submit w d tx = ⟨[.postTransaction tx],
        .error "Did not receive a transactionId, check status in wallet."⟩) ∨
    (∃ data t ts, w.postTransaction tx = .ok data ∧ rejected data = false ∧
      data.transactionIds = some (t :: ts) ∧
      submit w d tx = ⟨[.postTransaction tx, .broadcast tx, .setTitle "ARK Unvote delegate",
        .showOutput { delegate := d.username, transactionId := t }], .ok ()⟩) := by
  simp only [submit, bind_eq, Run.call, Run.emit, Run.fail, Run.swallow]
  rcases h1 : w.postTransaction tx with m | data
  · simp [andThen_mk_error]
  · cases hr : rejected data
    · rcases hids : data.transactionIds with _ | _ | ⟨t, ts⟩
      · simp [andThen_mk_ok, hr, hids]
      · simp [andThen_mk_ok, hr, hids]
      · simp [andThen_mk_ok, hr, hids]
    · simp [andThen_mk_ok, hr]

/-! ## The whole run -/
/-- The outcome of the `try` block, stage by stage: either a stage throws and
the trace stops with that stage, or every stage returns. -/
theorem body_cases (w : World) (cmd : Cmd) :
    (∃ m, (gatherInput w cmd).result = .error m ∧
      body w cmd = ⟨.setFormat (formatOf cmd) :: (gatherInput w cmd).trace, .error m⟩) ∨
    (∃ p s, (gatherInput w cmd).result = .ok (p, s) ∧
      ((∃ m, (connectNetwork w cmd).result = .error m ∧
        body w cmd = ⟨.setFormat (formatOf cmd) :: ((gatherInput w cmd).trace ++
          (connectNetwork w cmd).trace), .error m⟩) ∨
      ((connectNetwork w cmd).result = .ok () ∧
        ((∃ m, (resolveIdentity w cmd p).result = .error m ∧
          body w cmd = ⟨.setFormat (formatOf cmd) :: ((gatherInput w cmd).trace ++
            ((connectNetwork w cmd).trace ++ (resolveIdentity w cmd p).trace)), .error m⟩) ∨
        (∃ a pk i, (resolveIdentity w cmd p).result = .ok (a, pk, i) ∧
          ((∃ m, (buildTransaction w p s a).result = .error m ∧
            body w cmd = ⟨.setFormat (formatOf cmd) :: ((gatherInput w cmd).trace ++
              ((connectNetwork w cmd).trace ++ ((resolveIdentity w cmd p).trace ++
              (buildTransaction w p s a).trace))), .error m⟩) ∨
          (∃ d tx, (buildTransaction w p s a).result = .ok (d, tx) ∧
            ((∃ m, (confirmGate w cmd d).result = .error m ∧
              body w cmd = ⟨.setFormat (formatOf cmd) :: ((gatherInput w cmd).trace ++
                ((connectNetwork w cmd).trace ++ ((resolveIdentity w cmd p).trace ++
                ((buildTransaction w p s a).trace ++ (confirmGate w cmd d).trace)))), .error m⟩) ∨
            ((confirmGate w cmd d).result = .ok () ∧
              ((∃ m, (ledgerSign w cmd pk a i tx).result = .error m ∧
                body w cmd = ⟨.setFormat (formatOf cmd) :: ((gatherInput w cmd).trace ++
                  ((connectNetwork w cmd).trace ++ ((resolveIdentity w cmd p).trace ++
                  ((buildTransaction w p s a).trace ++ ((confirmGate w cmd d).trace ++
                  (ledgerSign w cmd pk a i tx).trace))))), .error m⟩) ∨
              (∃ tx2, (ledgerSign w cmd pk a i tx).result = .ok tx2 ∧
                body w cmd = ⟨.setFormat (formatOf cmd) :: ((gatherInput w cmd).trace ++
                  ((connectNetwork w cmd).trace ++ ((resolveIdentity w cmd p).trace ++
                  ((buildTransaction w p s a).trace ++ ((confirmGate w cmd d).trace ++
                  ((ledgerSign w cmd pk a i tx).trace ++ (submit w d tx2).trace)))))),
                  (submit w d tx2).result⟩))))))))))) := by
  rw [body]
  simp only [bind_eq]
  rw [emit_andThen]
  rcases hG : (gatherInput w cmd).result with m | ⟨p, s⟩
  · left
    refine ⟨m, rfl, ?_⟩
    rw [andThen_of_error hG]
  · right
    refine ⟨p, s, rfl, ?_⟩
    rw [andThen_of_ok hG]
    rcases hC : (connectNetwork w cmd).result with m | u
    · left
      refine ⟨m, rfl, ?_⟩
      rw [andThen_of_error hC]
    · right
      refine ⟨rfl, ?_⟩
      rw [andThen_of_ok hC]
      rcases hR : (resolveIdentity w cmd p).result with m | ⟨a, pk, i⟩
      · left
        refine ⟨m, rfl, ?_⟩
        rw [andThen_of_error hR]
      · right
        refine ⟨a, pk, i, rfl, ?_⟩
        rw [andThen_of_ok hR]
        rcases hB : (buildTransaction w p s a).result with m | ⟨d, tx⟩
        · left
          refine ⟨m, rfl, ?_⟩
          rw [andThen_of_error hB]
        · right
          refine ⟨d, tx, rfl, ?_⟩
          rw [andThen_of_ok hB]
          rcases hK : (confirmGate w cmd d).result with m | u
          · left
            refine ⟨m, rfl, ?_⟩
            rw [andThen_of_error hK]
          · right
            refine ⟨rfl, ?_⟩
            rw [andThen_of_ok hK]
            rcases hS : (ledgerSign w cmd pk a i tx).result with m | tx2
            · left
              refine ⟨m, rfl, ?_⟩
              rw [andThen_of_error hS]
            · right
              refine ⟨tx2, rfl, ?_⟩
              rw [andThen_of_ok hS]

theorem unvote_of_error {w : World} {cmd : Cmd} {t : List Event} {m : String}
    (h : body w cmd = ⟨t, .error m⟩) : unvote w cmd = ⟨t ++ [.showError m], some 1⟩ := by
  simp [unvote, h]

theorem unvote_of_ok {w : World} {cmd : Cmd} {t : List Event} {u : Unit}
    (h : body w cmd = ⟨t, .ok u⟩) : unvote w cmd = ⟨t, none⟩ := by
  simp [unvote, h]

theorem unvote_of_result_error {w : World} {cmd : Cmd} {t : List Event} {r : Except String Unit}
    {m : String} (h : body w cmd = ⟨t, r⟩) (hr : r = .error m) :
    unvote w cmd = ⟨t ++ [.showError m], some 1⟩ := by
  subst hr
  exact unvote_of_error h

theorem unvote_of_result_ok {w : World} {cmd : Cmd} {t : List Event} {r : Except String Unit}
    {u : Unit} (h : body w cmd = ⟨t, r⟩) (hr : r = .ok u) :
    unvote w cmd = ⟨t, none⟩ := by
  subst hr
  exact unvote_of_ok h


theorem mem_unvote_trace (w : World) (cmd : Cmd) (e : Event) :
    e ∈ (unvote w cmd).trace ↔
      e ∈ (body w cmd).trace ∨ ∃ m, (body w cmd).result = .error m ∧ e = .showError m := by
  unfold unvote
  rcases h : (body w cmd).result with m | u <;> simp

theorem buildTransaction_stage (w : World) (p s a : JsVal) :
    ∀ e ∈ (buildTransaction w p s a).trace, e.stage = 4 := by
  rcases buildTransaction_cases w p s a with ⟨m, _, h⟩ | ⟨d, m, _, _, h⟩ | ⟨d, tx, _, _, h⟩ <;>
    simp [h, Event.stage]

theorem confirmGate_stage (w : World) (cmd : Cmd) (d : Delegate) :
    ∀ e ∈ (confirmGate w cmd d).trace, e.stage = 5 := by
  rcases confirmGate_cases w cmd d with ⟨_, h⟩ | ⟨_, ⟨m, _, h⟩ | ⟨v, _, _, h⟩ | ⟨v, _, _, h⟩⟩ <;>
    simp [h, Event.stage]

theorem ledgerSign_stage (w : World) (cmd : Cmd) (pk a i : JsVal) (tx : Transaction) :
    ∀ e ∈ (ledgerSign w cmd pk a i tx).trace, e.stage = 6 := by
  rcases ledgerSign_cases w cmd pk a i tx with ⟨_, h⟩ | ⟨_, ⟨m, _, h⟩ | ⟨sig, _, h⟩⟩ <;>
    simp [h, Event.stage]

theorem submit_stage (w : World) (d : Delegate) (tx : Transaction) :
    ∀ e ∈ (submit w d tx).trace, e.stage = 7 := by
  rcases submit_cases w d tx with ⟨m, _, h⟩ | ⟨data, _, _, h⟩ | ⟨data, _, _, _, h⟩ |
    ⟨data, t, ts, _, _, _, h⟩ <;> simp [h, Event.stage]

theorem not_mem_gatherInput (w : World) (cmd : Cmd) (e : Event) (h : e.stage ≠ 1) :
    (e ∈ (gatherInput w cmd).trace) = False :=
  eq_false fun he => h ((gatherInput_spec w cmd).2.2 e he).1

theorem not_mem_connectNetwork (w : World) (cmd : Cmd) (e : Event) (h : e.stage ≠ 2) :
    (e ∈ (connectNetwork w cmd).trace) = False :=
  eq_false fun he => h ((connectNetwork_spec w cmd).2.2 e he)

theorem not_mem_resolveIdentity (w : World) (cmd : Cmd) (p : JsVal) (e : Event)
    (h : e.stage ≠ 3) : (e ∈ (resolveIdentity w cmd p).trace) = False :=
  eq_false fun he => h ((resolveIdentity_spec w cmd p).2.2.1 e he)

theorem not_mem_buildTransaction (w : World) (p s a : JsVal) (e : Event) (h : e.stage ≠ 4) :
    (e ∈ (buildTransaction w p s a).trace) = False :=
  eq_false fun he => h (buildTransaction_stage w p s a e he)

theorem not_mem_confirmGate (w : World) (cmd : Cmd) (d : Delegate) (e : Event)
    (h : e.stage ≠ 5) : (e ∈ (confirmGate w cmd d).trace) = False :=
  eq_false fun he => h (confirmGate_stage w cmd d e he)

theorem not_mem_ledgerSign (w : World) (cmd : Cmd) (pk a i : JsVal) (tx : Transaction)
    (e : Event) (h : e.stage ≠ 6) : (e ∈ (ledgerSign w cmd pk a i tx).trace) = False :=
  eq_false fun he => h (ledgerSign_stage w cmd pk a i tx e he)

theorem not_mem_submit (w : World) (d : Delegate) (tx : Transaction) (e : Event)
    (h : e.stage ≠ 7) : (e ∈ (submit w d tx).trace) = False :=
  eq_false fun he => h (submit_stage w d tx e he)


/-- A run that makes a submission call went through every earlier stage: its
trace is the calls of those stages followed by the calls of `submit`, and the
delegate handed to `submit` is the one the lookup returned. -/
theorem submit_reached (w : World) (cmd : Cmd) (e : Event) (hs : e.stage = 7)
    (h : e ∈ (unvote w cmd).trace) :
    ∃ before d tx, (∀ x ∈ before, x.stage < 7) ∧
      (∀ a, Event.getDelegate a ∈ before → w.getDelegate a = .ok d) ∧
      body w cmd = ⟨before ++ (submit w d tx).trace, (submit w d tx).result⟩ ∧
      e ∈ (submit w d tx).trace := by
  have hne : ∀ m, e ≠ Event.showError m := by
    intro m hm
    rw [hm] at hs
    simp [Event.stage] at hs
  rcases body_cases w cmd with ⟨m, hG, hb⟩ | ⟨p, s, hG, ⟨m, hC, hb⟩ | ⟨hC, ⟨m, hR, hb⟩ |
    ⟨a, pk, i, hR, ⟨m, hB, hb⟩ | ⟨d, tx, hB, ⟨m, hK, hb⟩ | ⟨hK, ⟨m, hS, hb⟩ | ⟨tx2, hS, hb⟩⟩⟩⟩⟩⟩
  · exfalso
    have hx : e = Event.setFormat (formatOf cmd) := by
      simpa [mem_unvote_trace, hb, not_mem_gatherInput, hs, hne] using h
    rw [hx] at hs
    simp [Event.stage] at hs
  · exfalso
    have hx : e = Event.setFormat (formatOf cmd) := by
      simpa [mem_unvote_trace, hb, not_mem_gatherInput, not_mem_connectNetwork, hs, hne] using h
    rw [hx] at hs
    simp [Event.stage] at hs
  · exfalso
    have hx : e = Event.setFormat (formatOf cmd) := by
      simpa [mem_unvote_trace, hb, not_mem_gatherInput, not_mem_connectNetwork,
        not_mem_resolveIdentity, hs, hne] using h
    rw [hx] at hs
    simp [Event.stage] at hs
  · exfalso
    have hx : e = Event.setFormat (formatOf cmd) := by
      simpa [mem_unvote_trace, hb, not_mem_gatherInput, not_mem_connectNetwork,
        not_mem_resolveIdentity, not_mem_buildTransaction, hs, hne] using h
    rw [hx] at hs
    simp [Event.stage] at hs
  · exfalso
    have hx : e = Event.setFormat (formatOf cmd) := by
      simpa [mem_unvote_trace, hb, not_mem_gatherInput, not_mem_connectNetwork,
        not_mem_resolveIdentity, not_mem_buildTransaction, not_mem_confirmGate, hs, hne]
        using h
    rw [hx] at hs
    simp [Event.stage] at hs
  · exfalso
    have hx : e = Event.setFormat (formatOf cmd) := by
      simpa [mem_unvote_trace, hb, not_mem_gatherInput, not_mem_connectNetwork,
        not_mem_resolveIdentity, not_mem_buildTransaction, not_mem_confirmGate,
        not_mem_ledgerSign, hs, hne] using h
    rw [hx] at hs
    simp [Event.stage] at hs
  · refine ⟨.setFormat (formatOf cmd) :: ((gatherInput w cmd).trace ++
      ((connectNetwork w cmd).trace ++ ((resolveIdentity w cmd p).trace ++
      ((buildTransaction w p s a).trace ++ ((confirmGate w cmd d).trace ++
      (ledgerSign w cmd pk a i tx).trace))))), d, tx2, ?_, ?_, ?_, ?_⟩
    · intro x hx
      simp only [List.mem_cons, List.mem_append] at hx
      rcases hx with rfl | hx | hx | hx | hx | hx | hx
      · simp [Event.stage]
      · rw [((gatherInput_spec w cmd).2.2 x hx).1]; decide
      · rw [(connectNetwork_spec w cmd).2.2 x hx]; decide
      · rw [(resolveIdentity_spec w cmd p).2.2.1 x hx]; decide
      · rw [buildTransaction_stage w p s a x hx]; decide
      · rw [confirmGate_stage w cmd d x hx]; decide
      · rw [ledgerSign_stage w cmd pk a i tx x hx]; decide
    · intro a2 ha2
      have hmem : Event.getDelegate a2 ∈ (buildTransaction w p s a).trace := by
        simpa [not_mem_gatherInput, not_mem_connectNetwork, not_mem_resolveIdentity,
          not_mem_confirmGate, not_mem_ledgerSign, Event.stage] using ha2
      rcases buildTransaction_cases w p s a with ⟨m3, _, hbt⟩ | ⟨d3, m3, _, _, hbt⟩ |
        ⟨d3, tx3, hd3, hc3, hbt⟩
      · rw [hbt] at hB
        simp at hB
      · rw [hbt] at hB
        simp at hB
      · rw [hbt] at hB hmem
        simp only [Except.ok.injEq, Prod.mk.injEq] at hB
        simp at hmem
        rw [hmem, hd3, hB.1]
    · rw [hb]
      simp
    · have hx : e = Event.setFormat (formatOf cmd) ∨ e ∈ (submit w d tx2).trace := by
        simpa [mem_unvote_trace, hb, not_mem_gatherInput, not_mem_connectNetwork,
          not_mem_resolveIdentity, not_mem_buildTransaction, not_mem_confirmGate,
          not_mem_ledgerSign, hs, hne] using h
      rcases hx with hx | hx
      · rw [hx] at hs
        simp [Event.stage] at hs
      · exact hx

/-- The four ways a run that posts a transaction can end. -/
theorem post_outcomes (w : World) (cmd : Cmd) (tx : Transaction)
    (h : Event.postTransaction tx ∈ (unvote w cmd).trace) :
    ∃ before d, (∀ x ∈ before, x.stage < 7) ∧
      (∀ a, Event.getDelegate a ∈ before → w.getDelegate a = .ok d) ∧
      ((∃ m, w.postTransaction tx = .error m ∧
          unvote w cmd = ⟨before ++ [.postTransaction tx, .showError m], some 1⟩) ∨
       (∃ data, w.postTransaction tx = .ok data ∧ rejected data = true ∧
          unvote w cmd =
            ⟨before ++ [.postTransaction tx, .showError (rejectionMessage data)], some 1⟩) ∨
       (∃ data, w.postTransaction tx = .ok data ∧ rejected data = false ∧
          (data.transactionIds = none ∨ data.transactionIds = some []) ∧
          unvote w cmd = ⟨before ++ [.postTransaction tx,
            .showError "Did not receive a transactionId, check status in wallet."], some 1⟩) ∨
       (∃ data t ts, w.postTransaction tx = .ok data ∧ rejected data = false ∧
          data.transactionIds = some (t :: ts) ∧
          unvote w cmd = ⟨before ++ [.postTransaction tx, .broadcast tx,
            .setTitle "ARK Unvote delegate",
            .showOutput { delegate := d.username, transactionId := t }], none⟩)) := by
  obtain ⟨before, d, tx2, hbefore, hdel, hb, hmem⟩ :=
    submit_reached w cmd (.postTransaction tx) rfl h
  have htx : tx2 = tx := by
    rcases submit_cases w d tx2 with ⟨m, _, hs⟩ | ⟨data, _, _, hs⟩ | ⟨data, _, _, _, hs⟩ |
      ⟨data, t, ts, _, _, _, hs⟩ <;> simpa [hs, eq_comm] using hmem
  subst htx
  refine ⟨before, d, hbefore, hdel, ?_⟩
  rcases submit_cases w d tx2 with ⟨m, hp, hs⟩ | ⟨data, hp, hr, hs⟩ | ⟨data, hp, hr, hi, hs⟩ |
    ⟨data, t, ts, hp, hr, hi, hs⟩
  · left
    rw [hs] at hb
    exact ⟨m, hp, by rw [unvote_of_error hb]; simp⟩
  · right; left
    rw [hs] at hb
    exact ⟨data, hp, hr, by rw [unvote_of_error hb]; simp⟩
  · right; right; left
    rw [hs] at hb
    exact ⟨data, hp, hr, hi, by rw [unvote_of_error hb]; simp⟩
  · right; right; right
    rw [hs] at hb
    exact ⟨data, t, ts, hp, hr, hi, by rw [unvote_of_ok hb]⟩

theorem not_mem_of_stage_lt {before : List Event} (h : ∀ x ∈ before, x.stage < 7)
    (e : Event) (he : 7 ≤ e.stage) : e ∉ before :=
  fun hmem => absurd (h e hmem) (by omega)


/-- A run that reaches the delegate lookup went through the input, network
and identity stages; it then either stops in the builder or continues with
later stages only.  The address looked up is the one of the seed in
passphrase mode and the one of the selected Ledger account in ledger mode. -/
theorem build_reached (w : World) (cmd : Cmd) (e : Event) (hs : e.stage = 4)
    (h : e ∈ (unvote w cmd).trace) :
    ∃ before p s a, (∀ x ∈ before, x.stage < 4) ∧
      e ∈ (buildTransaction w p s a).trace ∧
      (cmd.ledger.truthy = false → a = .str (w.getAccountFromSeed p w.netVersion)) ∧
      (cmd.ledger.truthy = true → ∃ wallets n wallet,
        Event.getLedgerWallet wallets ∈ before ∧ w.getLedgerWallet wallets = .ok n ∧
        wallets.get? n = some wallet ∧ a = .str wallet.address) ∧
      ((∃ m, (buildTransaction w p s a).result = .error m ∧
          unvote w cmd =
            ⟨before ++ ((buildTransaction w p s a).trace ++ [.showError m]), some 1⟩) ∨
       (∃ v after, (buildTransaction w p s a).result = .ok v ∧
          (unvote w cmd).trace = before ++ ((buildTransaction w p s a).trace ++ after) ∧
          ∀ x ∈ after, 4 < x.stage)) := by
  have hne : ∀ m, e ≠ Event.showError m := by
    intro m hm
    rw [hm] at hs
    simp [Event.stage] at hs
  have hnf : e ≠ Event.setFormat (formatOf cmd) := by
    intro hm
    rw [hm] at hs
    simp [Event.stage] at hs
  rcases body_cases w cmd with ⟨m, hG, hb⟩ | ⟨p, s, hG, ⟨m, hC, hb⟩ | ⟨hC, ⟨m, hR, hb⟩ |
    ⟨a, pk, i, hR, hrest⟩⟩⟩
  · exfalso
    simp [mem_unvote_trace, hb, not_mem_gatherInput, hs, hne, hnf] at h
  · exfalso
    simp [mem_unvote_trace, hb, not_mem_gatherInput, not_mem_connectNetwork, hs, hne, hnf] at h
  · exfalso
    simp [mem_unvote_trace, hb, not_mem_gatherInput, not_mem_connectNetwork,
      not_mem_resolveIdentity, hs, hne, hnf] at h
  · have hbefore : ∀ x ∈ Event.setFormat (formatOf cmd) :: ((gatherInput w cmd).trace ++
        ((connectNetwork w cmd).trace ++ (resolveIdentity w cmd p).trace)), x.stage < 4 := by
      intro x hx
      simp only [List.mem_cons, List.mem_append] at hx
      rcases hx with rfl | hx | hx | hx
      · simp [Event.stage]
      · rw [((gatherInput_spec w cmd).2.2 x hx).1]; decide
      · rw [(connectNetwork_spec w cmd).2.2 x hx]; decide
      · rw [(resolveIdentity_spec w cmd p).2.2.1 x hx]; decide
    have hid1 : cmd.ledger.truthy = false → a = .str (w.getAccountFromSeed p w.netVersion) := by
      intro hl
      rcases (resolveIdentity_spec w cmd p).2.2.2 a pk i hR with ⟨_, ha, _⟩ | ⟨hl2, _⟩
      · exact ha
      · rw [hl] at hl2
        simp at hl2
    have hid2 : cmd.ledger.truthy = true → ∃ wallets n wallet,
        Event.getLedgerWallet wallets ∈ Event.setFormat (formatOf cmd) ::
          ((gatherInput w cmd).trace ++
          ((connectNetwork w cmd).trace ++ (resolveIdentity w cmd p).trace)) ∧
        w.getLedgerWallet wallets = .ok n ∧
        wallets.get? n = some wallet ∧ a = .str wallet.address := by
      intro hl
      rcases (resolveIdentity_spec w cmd p).2.2.2 a pk i hR with ⟨hl2, _⟩ |
        ⟨_, wallets, n, wallet, ht, hn, hw, ha, _⟩
      · rw [hl] at hl2
        simp at hl2
      · exact ⟨wallets, n, wallet, by simp [ht], hn, hw, ha⟩
    refine ⟨_, p, s, a, hbefore, ?_, hid1, hid2, ?_⟩
    · rcases hrest with ⟨m, hB, hb⟩ | ⟨d, tx, hB, ⟨m, hK, hb⟩ | ⟨hK, ⟨m, hS, hb⟩ |
        ⟨tx2, hS, hb⟩⟩⟩
      · simpa [mem_unvote_trace, hb, not_mem_gatherInput, not_mem_connectNetwork,
          not_mem_resolveIdentity, hs, hne, hnf] using h
      · simpa [mem_unvote_trace, hb, not_mem_gatherInput, not_mem_connectNetwork,
          not_mem_resolveIdentity, not_mem_confirmGate, hs, hne, hnf] using h
      · simpa [mem_unvote_trace, hb, not_mem_gatherInput, not_mem_connectNetwork,
          not_mem_resolveIdentity, not_mem_confirmGate, not_mem_ledgerSign, hs, hne, hnf]
          using h
      · simpa [mem_unvote_trace, hb, not_mem_gatherInput, not_mem_connectNetwork,
          not_mem_resolveIdentity, not_mem_confirmGate, not_mem_ledgerSign, not_mem_submit,
          hs, hne, hnf] using h
    · rcases hrest with ⟨m, hB, hb⟩ | ⟨d, tx, hB, ⟨m, hK, hb⟩ | ⟨hK, ⟨m, hS, hb⟩ |
        ⟨tx2, hS, hb⟩⟩⟩
      · left
        exact ⟨m, hB, by rw [unvote_of_error hb]; simp⟩
      · right
        refine ⟨(d, tx), (confirmGate w cmd d).trace ++ [.showError m], hB, ?_, ?_⟩
        · rw [unvote_of_error hb]
          simp
        · intro x hx
          simp only [List.mem_append, List.mem_singleton] at hx
          rcases hx with hx | rfl
          · rw [confirmGate_stage w cmd d x hx]; decide
          · simp [Event.stage]
      · right
        refine ⟨(d, tx), (confirmGate w cmd d).trace ++
          ((ledgerSign w cmd pk a i tx).trace ++ [.showError m]), hB, ?_, ?_⟩
        · rw [unvote_of_error hb]
          simp
        · intro x hx
          simp only [List.mem_append, List.mem_singleton] at hx
          rcases hx with hx | hx | rfl
          · rw [confirmGate_stage w cmd d x hx]; decide
          · rw [ledgerSign_stage w cmd pk a i tx x hx]; decide
          · simp [Event.stage]
      · right
        rcases hsub : (submit w d tx2).result with m | u
        · refine ⟨(d, tx), (confirmGate w cmd d).trace ++
            ((ledgerSign w cmd pk a i tx).trace ++ ((submit w d tx2).trace ++ [.showError m])),
            hB, ?_, ?_⟩
          · rw [unvote_of_result_error hb hsub]
            simp
          · intro x hx
            simp only [List.mem_append, List.mem_singleton] at hx
            rcases hx with hx | hx | hx | rfl
            · rw [confirmGate_stage w cmd d x hx]; decide
            · rw [ledgerSign_stage w cmd pk a i tx x hx]; decide
            · rw [submit_stage w d tx2 x hx]; decide
            · simp [Event.stage]
        · refine ⟨(d, tx), (confirmGate w cmd d).trace ++
            ((ledgerSign w cmd pk a i tx).trace ++ (submit w d tx2).trace), hB, ?_, ?_⟩
          · rw [unvote_of_result_ok hb hsub]
            simp
          · intro x hx
            simp only [List.mem_append] at hx
            rcases hx with hx | hx | hx
            · rw [confirmGate_stage w cmd d x hx]; decide
            · rw [ledgerSign_stage w cmd pk a i tx x hx]; decide
            · rw [submit_stage w d tx2 x hx]; decide


theorem derivationPath_nat (slip44 i : Nat) :
    derivationPath slip44 (.num i) =
      "44'/" ++ toString slip44 ++ "'/" ++ toString i ++ "'/0/0" := rfl

theorem derivationPath_components (slip44 i : Nat) :
    derivationPath slip44 (.num i) =
      "/".intercalate ["44'", toString slip44 ++ "'", toString i ++ "'", "0", "0"] := by
  have h1 : ("44'/" : String) = "44'" ++ "/" := by decide
  have h2 : ("'/" : String) = "'" ++ "/" := by decide
  have h3 : ("'/0/0" : String) = "'" ++ ("/" ++ ("0" ++ ("/" ++ "0"))) := by decide
  rw [derivationPath_nat, h1, h2, h3]
  simp only [String.intercalate, String.intercalate.go, String.append_assoc]

/-- In a run that asked the operator to select among `wallets`, the identity
stage, when it returns, returns the selected account. -/
theorem identity_of_selection (w : World) (cmd : Cmd) (p : JsVal) (wallets : List Wallet)
    (i : Nat) (wallet : Wallet)
    (hsel : Event.getLedgerWallet wallets ∈ (resolveIdentity w cmd p).trace)
    (hi : w.getLedgerWallet wallets = .ok i) (hw : wallets.get? i = some wallet)
    (a pk j : JsVal) (hR : (resolveIdentity w cmd p).result = .ok (a, pk, j)) :
    cmd.ledger.truthy = true ∧ a = .str wallet.address ∧ pk = .str wallet.publicKey ∧
      j = .num i := by
  rcases (resolveIdentity_spec w cmd p).2.2.2 a pk j hR with ⟨_, _, ht⟩ |
    ⟨hl, wallets2, n, wallet2, ht, hn, hw2, ha, hpk, hj⟩
  · simp [ht] at hsel
  · have hws : wallets = wallets2 := by simpa [ht] using hsel
    subst hws
    rw [hi] at hn
    simp only [Except.ok.injEq] at hn
    subst hn
    rw [hw] at hw2
    simp only [Option.some.injEq] at hw2
    subst hw2
    exact ⟨hl, ha, hpk, hj⟩


/-- C1 (amended): when the operator declines the confirmation prompt the run
fails with exit status 1, its last three calls are `arkjs.vote.createVote`,
the prompt and `output.showError` with 'Transaction cancelled by user.',
`createVote` is not called before that, and `ledger.signTransaction`,
`network.postTransaction` and `network.broadcast` are never called. -/
theorem C1_declined_never_reaches_device_or_node (w : World) (cmd : Cmd) (message : String)
    (answer : JsVal)
    (hprompt : Event.promptConfirmTransaction message ∈ (unvote w cmd).trace)
    (hanswer : w.promptConfirmTransaction message = .ok answer)
    (hfalsy : answer.truthy = false) :
    cmd.interactive.truthy = true ∧
    (unvote w cmd).exitCode = some 1 ∧
    (∃ before p votes s, (unvote w cmd).trace =
        before ++ [.createVote p votes s, .promptConfirmTransaction message,
          .showError "Transaction cancelled by user."] ∧
      ∀ p2 votes2 s2, Event.createVote p2 votes2 s2 ∉ before) ∧
    (∀ path tx, Event.signTransaction path tx ∉ (unvote w cmd).trace) ∧
    (∀ tx, Event.postTransaction tx ∉ (unvote w cmd).trace) ∧
    (∀ tx, Event.broadcast tx ∉ (unvote w cmd).trace) := by
  rcases body_cases w cmd with ⟨m, hG, hb⟩ | ⟨p, s, hG, ⟨m, hC, hb⟩ | ⟨hC, ⟨m, hR, hb⟩ |
    ⟨a, pk, i, hR, ⟨m, hB, hb⟩ | ⟨d, tx, hB, ⟨m, hK, hb⟩ | ⟨hK, ⟨m, hS, hb⟩ | ⟨tx2, hS, hb⟩⟩⟩⟩⟩⟩
  · exfalso
    simp [mem_unvote_trace, hb, not_mem_gatherInput, Event.stage] at hprompt
  · exfalso
    simp [mem_unvote_trace, hb, not_mem_gatherInput, not_mem_connectNetwork, Event.stage]
      at hprompt
  · exfalso
    simp [mem_unvote_trace, hb, not_mem_gatherInput, not_mem_connectNetwork,
      not_mem_resolveIdentity, Event.stage] at hprompt
  · exfalso
    simp [mem_unvote_trace, hb, not_mem_gatherInput, not_mem_connectNetwork,
      not_mem_resolveIdentity, not_mem_buildTransaction, Event.stage] at hprompt
  · rcases confirmGate_cases w cmd d with ⟨_, hk⟩ | ⟨hi, ⟨m2, he, hk⟩ | ⟨v, he, hv, hk⟩ |
      ⟨v, he, hv, hk⟩⟩
    · rw [hk] at hK
      simp at hK
    · exfalso
      simp [mem_unvote_trace, hb, hk, not_mem_gatherInput, not_mem_connectNetwork,
        not_mem_resolveIdentity, not_mem_buildTransaction, Event.stage] at hprompt
      rw [hprompt, he] at hanswer
      simp at hanswer
    · rw [hk] at hK hb
      simp only [Except.error.injEq] at hK
      subst hK
      rcases buildTransaction_cases w p s a with ⟨m3, _, hbt⟩ | ⟨d3, m3, _, _, hbt⟩ |
        ⟨d3, tx3, hd3, hc3, hbt⟩
      · rw [hbt] at hB
        simp at hB
      · rw [hbt] at hB
        simp at hB
      · rw [hbt] at hB hb
        simp only [Except.ok.injEq, Prod.mk.injEq] at hB
        obtain ⟨rfl, rfl⟩ := hB
        have hmsg : message = confirmMessage d3 := by
          simpa [mem_unvote_trace, hb, not_mem_gatherInput, not_mem_connectNetwork,
            not_mem_resolveIdentity, Event.stage] using hprompt
        subst hmsg
        have hint : cmd.interactive.truthy = true := by
          unfold interactiveOf at hi
          split at hi
          · assumption
          · simp [JsVal.truthy] at hi
        refine ⟨hint, ?_, ?_, ?_, ?_, ?_⟩
        · rw [unvote_of_error hb]
        · refine ⟨.setFormat (formatOf cmd) :: ((gatherInput w cmd).trace ++
            ((connectNetwork w cmd).trace ++ ((resolveIdentity w cmd p).trace ++
            [.getDelegate a, .setNetworkVersion w.netVersion]))), p, voteEntry d3, s, ?_, ?_⟩
          · rw [unvote_of_error hb]
            simp
          · intro p2 votes2 s2
            simp [not_mem_gatherInput, not_mem_connectNetwork, not_mem_resolveIdentity,
              Event.stage]
        · intro path tx
          simp [unvote_of_error hb, not_mem_gatherInput, not_mem_connectNetwork,
            not_mem_resolveIdentity, Event.stage]
        · intro tx
          simp [unvote_of_error hb, not_mem_gatherInput, not_mem_connectNetwork,
            not_mem_resolveIdentity, Event.stage]
        · intro tx
          simp [unvote_of_error hb, not_mem_gatherInput, not_mem_connectNetwork,
            not_mem_resolveIdentity, Event.stage]
    · rw [hk] at hK
      simp at hK
  all_goals
    exfalso
    have hp : Event.promptConfirmTransaction message ∈ (confirmGate w cmd d).trace := by
      simpa [mem_unvote_trace, hb, not_mem_gatherInput, not_mem_connectNetwork,
        not_mem_resolveIdentity, not_mem_buildTransaction, not_mem_ledgerSign, not_mem_submit,
        Event.stage] using hprompt
    rcases confirmGate_cases w cmd d with ⟨_, hk⟩ | ⟨hi, ⟨m2, he, hk⟩ | ⟨v, he, hv, hk⟩ |
      ⟨v, he, hv, hk⟩⟩
    · simp [hk] at hp
    · rw [hk] at hK
      simp at hK
    · rw [hk] at hK
      simp at hK
    · simp [hk] at hp
      rw [hp, he] at hanswer
      simp only [Except.ok.injEq] at hanswer
      rw [hanswer, hfalsy] at hv
      simp at hv

/-- C1 (as stated) fails: with `--passphrase secret --interactive` and an
operator who answers no, the run is cancelled, yet `arkjs.vote.createVote`,
the signing primitive, has already been called with the passphrase. -/
theorem C1_createVote_precedes_confirmation :
    interactiveCmd.interactive.truthy = true ∧
    decliningWorld.promptConfirmTransaction "Removing vote for u1 now. Are you sure? Y(es)/N(o)"
      = .ok (.bool false) ∧
    (unvote decliningWorld interactiveCmd).trace =
      [.setFormat (.str "json"), .getPrompt false false,
        .joiValidate (.str "secret") (.str ""), .setNetwork (.str "mainnet"),
        .connect (.str "mainnet"), .getAccountFromSeed (.str "secret") 23,
        .getDelegate (.str "A"), .setNetworkVersion 23,
        .createVote (.str "secret") ["-P"] .null,
        .promptConfirmTransaction "Removing vote for u1 now. Are you sure? Y(es)/N(o)",
        .showError "Transaction cancelled by user."] ∧
    Event.createVote (.str "secret") ["-P"] .null ∈ (unvote decliningWorld interactiveCmd).trace :=
  ⟨by decide, rfl, by decide, by decide⟩

/-- C1 (amended) at the declining operator: exit status 1, and neither the
device nor the node is asked anything. -/
theorem C1_declined_witness :
    (unvote decliningWorld interactiveCmd).exitCode = some 1 ∧
    (∀ path tx, Event.signTransaction path tx ∉ (unvote decliningWorld interactiveCmd).trace) ∧
    (∀ tx, Event.postTransaction tx ∉ (unvote decliningWorld interactiveCmd).trace) ∧
    (∀ tx, Event.broadcast tx ∉ (unvote decliningWorld interactiveCmd).trace) :=
  have h := C1_declined_never_reaches_device_or_node decliningWorld interactiveCmd
    "Removing vote for u1 now. Are you sure? Y(es)/N(o)" (.bool false)
    (by decide) (by rfl) (by rfl)
  ⟨h.2.1, h.2.2.2⟩

/-! ## C2: unknown network -/

/-- C2 (amended): when the network name has no truthy entry in the networks
table the run fails with exit status 1 without any network call, and the only
device call it can contain is the `ledger.isSupported` of ledger mode; if none
of the steps made before the check failed, the message shown is
'Unknown network: ' followed by the name. -/
theorem C2_unknown_network_rejected (w : World) (cmd : Cmd)
    (hunknown : (w.networks (netOf cmd).toStr).truthy = false) :
    (unvote w cmd).exitCode = some 1 ∧
    (∀ e ∈ (unvote w cmd).trace, e.isNetworkCall = false ∧
      (e.isDeviceCall = true → e = .ledgerIsSupported ∧ cmd.ledger.truthy = true)) ∧
    ((∀ e ∈ (unvote w cmd).trace, stepFailed w e = false) →
      ∃ before, (unvote w cmd).trace =
        before ++ [.showError ("Unknown network: " ++ (netOf cmd).toStr)]) := by
  have hC := connectNetwork_unknown w cmd hunknown
  have hstage : ∀ e ∈ (gatherInput w cmd).trace, e.isNetworkCall = false ∧
      (e.isDeviceCall = true → e = .ledgerIsSupported ∧ cmd.ledger.truthy = true) := by
    intro e he
    obtain ⟨h1, h2⟩ := (gatherInput_spec w cmd).2.2 e he
    cases e <;> simp_all [Event.stage, Event.isNetworkCall, Event.isDeviceCall]
  rcases body_cases w cmd with ⟨m, hG, hb⟩ | ⟨p, s, hG, ⟨m, hCe, hb⟩ | ⟨hCo, _⟩⟩
  · rw [unvote_of_error hb]
    refine ⟨rfl, ?_, ?_⟩
    · intro e he
      simp only [List.cons_append, List.mem_cons, List.mem_append, List.mem_singleton,
        List.not_mem_nil, or_false] at he
      rcases he with rfl | he | rfl
      · simp [Event.isNetworkCall, Event.isDeviceCall]
      · exact hstage e he
      · simp [Event.isNetworkCall, Event.isDeviceCall]
    · intro hno
      exfalso
      obtain ⟨e, he, hf⟩ := (gatherInput_spec w cmd).1 m hG
      have := hno e (by simp [he])
      rw [this] at hf
      simp at hf
  · rw [hC] at hCe hb
    simp only [Except.error.injEq] at hCe
    subst hCe
    rw [unvote_of_error hb]
    refine ⟨rfl, ?_, ?_⟩
    · intro e he
      simp only [List.cons_append, List.mem_cons, List.mem_append, List.mem_singleton,
        List.not_mem_nil, or_false, List.append_nil] at he
      rcases he with rfl | he | rfl
      · simp [Event.isNetworkCall, Event.isDeviceCall]
      · exact hstage e he
      · simp [Event.isNetworkCall, Event.isDeviceCall]
    · intro _
      exact ⟨_, rfl⟩
  · rw [hC] at hCo
    simp at hCo

/-- C2 (as stated) fails twice.  In ledger mode `ledger.isSupported`, a device
call, precedes the unknown-network check; and an operator who enters an empty
passphrase gets the validation error, not 'Unknown network: devnet'. -/
theorem C2_device_call_and_validation_come_first :
    ((sampleWorld.networks (netOf unknownLedgerCmd).toStr).truthy = false ∧
      (unvote sampleWorld unknownLedgerCmd).trace =
        [.setFormat (.str "json"), .ledgerIsSupported, .getPrompt false false,
          .joiValidate (.str "pass") (.str ""), .showError "Unknown network: devnet"] ∧
      Event.ledgerIsSupported.isDeviceCall = true) ∧
    ((emptyPassphraseWorld.networks (netOf unknownPromptCmd).toStr).truthy = false ∧
      (unvote emptyPassphraseWorld unknownPromptCmd).trace =
        [.setFormat (.str "json"), .getPrompt true false,
          .joiValidate (.str "") (.str ""), .showError "The passphrase must be a string."]) :=
  by decide

/-- C2 (amended) at `--ledger --network devnet`: the run fails, no network
call is made, and the message names the network. -/
theorem C2_unknown_network_witness :
    (sampleWorld.networks (netOf unknownLedgerCmd).toStr).truthy = false ∧
    (unvote sampleWorld unknownLedgerCmd).exitCode = some 1 ∧
    (∀ e ∈ (unvote sampleWorld unknownLedgerCmd).trace, e.isNetworkCall = false) ∧
    ∃ before, (unvote sampleWorld unknownLedgerCmd).trace =
      before ++ [.showError ("Unknown network: " ++ (netOf unknownLedgerCmd).toStr)] :=
  have h := C2_unknown_network_rejected sampleWorld unknownLedgerCmd (by decide)
  ⟨by decide, h.1, fun e he => (h.2.1 e he).1, h.2.2 (by decide)⟩

/-! ## C3 and C4: reading the node's answer -/

/-- C3: when the node answers the post with `success === true` but without a
transaction id (the field is missing or is an empty list), the run shows no
result and does not broadcast, its last call is `output.showError` with
'Did not receive a transactionId, check status in wallet.', the only error
shown, and the exit status is 1.  Moreover `output.showOutput` is called only
in a run whose post was answered with at least one transaction id. -/
theorem C3_success_without_id_is_an_error (w : World) (cmd : Cmd) :
    (∀ tx data, Event.postTransaction tx ∈ (unvote w cmd).trace →
      w.postTransaction tx = .ok data →
      data.success = some (.bool true) →
      (data.transactionIds = none ∨ data.transactionIds = some []) →
      (∀ r, Event.showOutput r ∉ (unvote w cmd).trace) ∧
      (∀ t, Event.broadcast t ∉ (unvote w cmd).trace) ∧
      (∃ before, (unvote w cmd).trace = before ++
          [.showError "Did not receive a transactionId, check status in wallet."] ∧
        ∀ m, Event.showError m ∉ before) ∧
      (unvote w cmd).exitCode = some 1) ∧
    (∀ r, Event.showOutput r ∈ (unvote w cmd).trace →
      ∃ tx data ts, Event.postTransaction tx ∈ (unvote w cmd).trace ∧
        w.postTransaction tx = .ok data ∧
        data.transactionIds = some (r.transactionId :: ts)) := by
  constructor
  · intro tx data hpost hresp hsucc hids
    obtain ⟨before, d, hbefore, _, hcases⟩ := post_outcomes w cmd tx hpost
    have hnr : rejected data = false := by simp [rejected, hsucc, JsVal.truthy]
    rcases hcases with ⟨m, hp, hu⟩ | ⟨data2, hp, hr, hu⟩ | ⟨data2, hp, hr, hi, hu⟩ |
      ⟨data2, t, ts, hp, hr, hi, hu⟩
    · rw [hp] at hresp
      simp at hresp
    · rw [hp] at hresp
      simp only [Except.ok.injEq] at hresp
      subst hresp
      rw [hr] at hnr
      simp at hnr
    · rw [hu]
      refine ⟨?_, ?_, ?_, rfl⟩
      · intro r
        simp [not_mem_of_stage_lt hbefore (.showOutput r) (by simp [Event.stage])]
      · intro t
        simp [not_mem_of_stage_lt hbefore (.broadcast t) (by simp [Event.stage])]
      · refine ⟨before ++ [.postTransaction tx], by simp, ?_⟩
        intro m
        simp [not_mem_of_stage_lt hbefore (.showError m) (by simp [Event.stage])]
    · rw [hp] at hresp
      simp only [Except.ok.injEq] at hresp
      subst hresp
      rcases hids with hids | hids <;> rw [hids] at hi <;> simp at hi
  · intro r hr
    obtain ⟨before, d, tx, hbefore, _, hb, hmem⟩ :=
      submit_reached w cmd (.showOutput r) rfl hr
    rcases submit_cases w d tx with ⟨m, _, hs⟩ | ⟨data, _, _, hs⟩ | ⟨data, _, _, _, hs⟩ |
      ⟨data, t, ts, hp, _, hi, hs⟩
    · simp [hs] at hmem
    · simp [hs] at hmem
    · simp [hs] at hmem
    · refine ⟨tx, data, ts, ?_, hp, ?_⟩
      · rw [mem_unvote_trace, hb, hs]
        simp
      · have : r = { delegate := d.username, transactionId := t } := by
          simpa [hs] using hmem
        rw [hi, this]

/-- C3 at a node that answers `{success: true, transactionIds: []}`. -/
theorem C3_success_without_id_witness :
    (∀ r, Event.showOutput r ∉ (unvote noIdWorld sampleCmd).trace) ∧
    (∀ t, Event.broadcast t ∉ (unvote noIdWorld sampleCmd).trace) ∧
    (unvote noIdWorld sampleCmd).exitCode = some 1 :=
  have h := (C3_success_without_id_is_an_error noIdWorld sampleCmd).1 (sampleTx ["-P"])
    { success := some (.bool true), error := none, transactionIds := some [] }
    (by decide) rfl rfl (Or.inr rfl)
  ⟨h.1, h.2.1, h.2.2.2⟩


/-- C4: when the node's answer to the post has no `success` property or a
falsy one, the run fails with exit status 1, never broadcasts and never shows
a result, whatever `transactionIds` holds; the last call is `output.showError`
with the node's `error` when that is present and truthy, and with
'Failed to post transaction to the network.' otherwise. -/
theorem C4_missing_success_is_rejection (w : World) (cmd : Cmd) (tx : Transaction)
    (data : PostData)
    (hpost : Event.postTransaction tx ∈ (unvote w cmd).trace)
    (hresp : w.postTransaction tx = .ok data)
    (hrej : data.success = none ∨ ∃ v, data.success = some v ∧ v.truthy = false) :
    (unvote w cmd).exitCode = some 1 ∧
    (∀ t, Event.broadcast t ∉ (unvote w cmd).trace) ∧
    (∀ r, Event.showOutput r ∉ (unvote w cmd).trace) ∧
    (∀ e, data.error = some e → e.truthy = true →
      ∃ before, (unvote w cmd).trace = before ++ [.showError e.toStr] ∧
        ∀ m, Event.showError m ∉ before) ∧
    ((data.error = none ∨ ∃ e, data.error = some e ∧ e.truthy = false) →
      ∃ before, (unvote w cmd).trace =
          before ++ [.showError "Failed to post transaction to the network."] ∧
        ∀ m, Event.showError m ∉ before) := by
  obtain ⟨before, d, hbefore, _, hcases⟩ := post_outcomes w cmd tx hpost
  have hr : rejected data = true := by
    rcases hrej with h | ⟨v, h, hv⟩
    · simp [rejected, h]
    · simp [rejected, h, hv]
  rcases hcases with ⟨m, hp, hu⟩ | ⟨data2, hp, hr2, hu⟩ | ⟨data2, hp, hr2, hi, hu⟩ |
    ⟨data2, t, ts, hp, hr2, hi, hu⟩
  · rw [hp] at hresp
    simp at hresp
  · rw [hp] at hresp
    simp only [Except.ok.injEq] at hresp
    subst hresp
    rw [hu]
    refine ⟨rfl, ?_, ?_, ?_, ?_⟩
    · intro t
      simp [not_mem_of_stage_lt hbefore (.broadcast t) (by simp [Event.stage])]
    · intro r
      simp [not_mem_of_stage_lt hbefore (.showOutput r) (by simp [Event.stage])]
    · intro e he ht
      refine ⟨before ++ [.postTransaction tx], by simp [rejectionMessage, he, ht], ?_⟩
      intro m
      simp [not_mem_of_stage_lt hbefore (.showError m) (by simp [Event.stage])]
    · intro he
      refine ⟨before ++ [.postTransaction tx], ?_, ?_⟩
      · rcases he with he | ⟨e, he, ht⟩
        · simp [rejectionMessage, he]
        · simp [rejectionMessage, he, ht]
      · intro m
        simp [not_mem_of_stage_lt hbefore (.showError m) (by simp [Event.stage])]
  · rw [hp] at hresp
    simp only [Except.ok.injEq] at hresp
    subst hresp
    rw [hr] at hr2
    simp at hr2
  · rw [hp] at hresp
    simp only [Except.ok.injEq] at hresp
    subst hresp
    rw [hr] at hr2
    simp at hr2

/-- C4 at a node that answers `{error: 'Insufficient balance', transactionIds:
['tx123']}` without a `success` flag: the node's error is shown, nothing is
broadcast or reported. -/
theorem C4_missing_success_witness :
    (unvote rejectingWorld sampleCmd).exitCode = some 1 ∧
    (∀ t, Event.broadcast t ∉ (unvote rejectingWorld sampleCmd).trace) ∧
    (∀ r, Event.showOutput r ∉ (unvote rejectingWorld sampleCmd).trace) ∧
    ∃ before, (unvote rejectingWorld sampleCmd).trace =
      before ++ [.showError "Insufficient balance"] :=
  have h := C4_missing_success_is_rejection rejectingWorld sampleCmd (sampleTx ["-P"])
    { success := none, error := some (.str "Insufficient balance"),
      transactionIds := some ["tx123"] }
    (by decide) rfl (Or.inl rfl)
  ⟨h.1, h.2.1, h.2.2.1,
    (h.2.2.2.1 (.str "Insufficient balance") rfl rfl).elim fun before hb => ⟨before, hb.1⟩⟩

/-! ## C5 and C7: the delegate lookup and the vote entry -/

/-- C5 (amended): when `accountUtils.getDelegate` throws, the run fails with
exit status 1 right after the lookup, showing the thrown message, and
`arkjs.vote.createVote`, `ledger.signTransaction` and
`network.postTransaction` are never called; when it returns an object, that
object is used as it is and `createVote` is called with the entry built from
it. -/
theorem C5_failed_lookup_builds_nothing (w : World) (cmd : Cmd) (address : JsVal)
    (hlookup : Event.getDelegate address ∈ (unvote w cmd).trace) :
    (∀ m, w.getDelegate address = .error m →
      (unvote w cmd).exitCode = some 1 ∧
      (∃ before, (unvote w cmd).trace = before ++ [.getDelegate address, .showError m]) ∧
      (∀ p votes s, Event.createVote p votes s ∉ (unvote w cmd).trace) ∧
      (∀ path tx, Event.signTransaction path tx ∉ (unvote w cmd).trace) ∧
      (∀ tx, Event.postTransaction tx ∉ (unvote w cmd).trace)) ∧
    (∀ d, w.getDelegate address = .ok d →
      ∃ p s, Event.createVote p ["-" ++ d.publicKey.toStr] s ∈ (unvote w cmd).trace) := by
  obtain ⟨before, p, s, a, hbefore, hmem, _, _, hcases⟩ :=
    build_reached w cmd (.getDelegate address) rfl hlookup
  have hlt : ∀ e : Event, 4 ≤ e.stage → e ∉ before :=
    fun e he hx => absurd (hbefore e hx) (by omega)
  rcases buildTransaction_cases w p s a with ⟨m3, hd3, hbt⟩ | ⟨d3, m3, hd3, hc3, hbt⟩ |
    ⟨d3, tx3, hd3, hc3, hbt⟩
  · have ha : address = a := by simpa [hbt] using hmem
    subst ha
    constructor
    · intro m hm
      rw [hd3] at hm
      simp only [Except.error.injEq] at hm
      subst hm
      rcases hcases with ⟨m4, hr, hu⟩ | ⟨v, after, hr, _, _⟩
      · rw [hbt] at hr hu
        simp only [Except.error.injEq] at hr
        subst hr
        rw [hu]
        refine ⟨rfl, ⟨before, by simp⟩, ?_, ?_, ?_⟩
        · intro p2 v2 s2
          simp [hlt (.createVote p2 v2 s2) (by simp [Event.stage])]
        · intro path tx
          simp [hlt (.signTransaction path tx) (by simp [Event.stage])]
        · intro tx
          simp [hlt (.postTransaction tx) (by simp [Event.stage])]
      · rw [hbt] at hr
        simp at hr
    · intro d hd
      rw [hd3] at hd
      simp at hd
  · have ha : address = a := by simpa [hbt] using hmem
    subst ha
    constructor
    · intro m hm
      rw [hd3] at hm
      simp at hm
    · intro d hd
      rw [hd3] at hd
      simp only [Except.ok.injEq] at hd
      subst hd
      refine ⟨p, s, ?_⟩
      rcases hcases with ⟨m4, hr, hu⟩ | ⟨v, after, hr, hu, _⟩
      · rw [hu, hbt]
        simp [voteEntry]
      · rw [hu, hbt]
        simp [voteEntry]
  · have ha : address = a := by simpa [hbt] using hmem
    subst ha
    constructor
    · intro m hm
      rw [hd3] at hm
      simp at hm
    · intro d hd
      rw [hd3] at hd
      simp only [Except.ok.injEq] at hd
      subst hd
      refine ⟨p, s, ?_⟩
      rcases hcases with ⟨m4, hr, hu⟩ | ⟨v, after, hr, hu, _⟩
      · rw [hu, hbt]
        simp [voteEntry]
      · rw [hu, hbt]
        simp [voteEntry]

/-- C5 (as stated) fails: when the lookup returns an object without a public
key, nothing stops the run; `createVote` is called with the entry
'-undefined', the transaction is posted, and the run reports success. -/
theorem C5_missing_public_key_is_not_checked :
    noVoteWorld.getDelegate (.str "A") = .ok { publicKey := .undefined, username := .undefined } ∧
    (unvote noVoteWorld sampleCmd).trace =
      [.setFormat (.str "json"), .getPrompt false false,
        .joiValidate (.str "secret") (.str ""), .setNetwork (.str "mainnet"),
        .connect (.str "mainnet"), .getAccountFromSeed (.str "secret") 23,
        .getDelegate (.str "A"), .setNetworkVersion 23,
        .createVote (.str "secret") ["-undefined"] .null,
        .postTransaction (sampleTx ["-undefined"]), .broadcast (sampleTx ["-undefined"]),
        .setTitle "ARK Unvote delegate",
        .showOutput { delegate := .undefined, transactionId := "tx123" }] ∧
    (unvote noVoteWorld sampleCmd).exitCode = none :=
  ⟨rfl, by decide, by decide⟩

/-- C5 (amended) at a lookup that throws 'Failed to get delegate.'. -/
theorem C5_failed_lookup_witness :
    (unvote failingLookupWorld sampleCmd).exitCode = some 1 ∧
    (∀ p votes s, Event.createVote p votes s ∉ (unvote failingLookupWorld sampleCmd).trace) ∧
    (∀ tx, Event.postTransaction tx ∉ (unvote failingLookupWorld sampleCmd).trace) :=
  have h := (C5_failed_lookup_builds_nothing failingLookupWorld sampleCmd (.str "A")
    (by decide)).1 "Failed to get delegate." rfl
  ⟨h.1, h.2.2.1, h.2.2.2.2⟩

/-- C7: every call of `arkjs.vote.createVote` receives a vote list with exactly
one entry, '-' followed by the public key of the delegate that the lookup
returned for the signing address (the address of the seed in passphrase mode,
the address of the selected account in ledger mode); no other vote list is
handed to `createVote` in the run. -/
theorem C7_single_removal_entry (w : World) (cmd : Cmd) (p : JsVal) (votes : List String)
    (s : JsVal) (hcreate : Event.createVote p votes s ∈ (unvote w cmd).trace) :
    ∃ address d, Event.getDelegate address ∈ (unvote w cmd).trace ∧
      w.getDelegate address = .ok d ∧
      votes = ["-" ++ d.publicKey.toStr] ∧
      (∀ key, d.publicKey = .str key → votes = ["-" ++ key]) ∧
      votes.length = 1 ∧
      (cmd.ledger.truthy = false → address = .str (w.getAccountFromSeed p w.netVersion)) ∧
      (cmd.ledger.truthy = true → ∃ wallets n wallet,
        Event.getLedgerWallet wallets ∈ (unvote w cmd).trace ∧
        w.getLedgerWallet wallets = .ok n ∧ wallets.get? n = some wallet ∧
        address = .str wallet.address) ∧
      (∀ p2 votes2 s2, Event.createVote p2 votes2 s2 ∈ (unvote w cmd).trace →
        votes2 = votes) := by
  obtain ⟨before, p0, s0, a, hbefore, hmem, hid1, hid2, hcases⟩ :=
    build_reached w cmd (.createVote p votes s) rfl hcreate
  have hlt : ∀ e : Event, 4 ≤ e.stage → e ∉ before :=
    fun e he hx => absurd (hbefore e hx) (by omega)
  have htrace : ∃ after, (unvote w cmd).trace =
      before ++ ((buildTransaction w p0 s0 a).trace ++ after) ∧ ∀ x ∈ after, 4 < x.stage := by
    rcases hcases with ⟨m4, hr, hu⟩ | ⟨v, after, hr, hu, hafter⟩
    · exact ⟨[.showError m4], by rw [hu], by simp [Event.stage]⟩
    · exact ⟨after, hu, hafter⟩
  obtain ⟨after, hu, hafter⟩ := htrace
  have hgt : ∀ e : Event, e.stage ≤ 4 → e ∉ after :=
    fun e he hx => absurd (hafter e hx) (by omega)
  rcases buildTransaction_cases w p0 s0 a with ⟨m3, hd3, hbt⟩ | ⟨d3, m3, hd3, hc3, hbt⟩ |
    ⟨d3, tx3, hd3, hc3, hbt⟩
  · simp [hbt] at hmem
  all_goals
    have hp : p = p0 ∧ votes = voteEntry d3 ∧ s = s0 := by simpa [hbt] using hmem
    obtain ⟨rfl, rfl, rfl⟩ := hp
    refine ⟨a, d3, ?_, hd3, rfl, ?_, rfl, hid1, ?_, ?_⟩
    · rw [hu, hbt]
      simp
    · intro key hkey
      simp [voteEntry, hkey, JsVal.toStr]
    · intro hl
      obtain ⟨wallets, n, wallet, hwm, hn, hw, ha⟩ := hid2 hl
      exact ⟨wallets, n, wallet, by rw [hu]; simp [hwm], hn, hw, ha⟩
    · intro p2 votes2 s2 h2
      rw [hu, hbt] at h2
      simp only [List.mem_append, List.mem_cons, List.mem_singleton, List.not_mem_nil,
        or_false] at h2
      rcases h2 with h2 | (h2 | h2 | h2) | h2
      · exact absurd h2 (hlt _ (by simp [Event.stage]))
      · simp at h2
      · simp at h2
      · simp only [Event.createVote.injEq] at h2
        exact h2.2.1
      · exact absurd h2 (hgt _ (by simp [Event.stage]))

/-- C7 on the sample run: the delegate's public key is `P`, the vote list is
`['-P']`. -/
theorem C7_single_removal_entry_witness :
    ∃ address d, Event.getDelegate address ∈ (unvote sampleWorld sampleCmd).trace ∧
      sampleWorld.getDelegate address = .ok d ∧
      (["-P"] : List String) = ["-" ++ d.publicKey.toStr] :=
  (C7_single_removal_entry sampleWorld sampleCmd (.str "secret") ["-P"] .null
    (by decide)).elim fun address h => h.elim fun d hd =>
      ⟨address, d, hd.1, hd.2.1, hd.2.2.1⟩

/-! ## C6: the Ledger path and the sender -/

/-- C6: in a run where the operator selects index `i` among the accounts
`wallets` listed by the Ledger, every call of `ledger.signTransaction`
receives the path `44'/<slip44>'/<i>'/0/0`, whose third component is the
index, and a transaction whose sender and recipient are the public key and
the address of `wallets[i]`; and every transaction handed to
`network.postTransaction` has that sender and that recipient and carries the
signature the device returned for it. -/
theorem C6_ledger_path_and_sender (w : World) (cmd : Cmd) (wallets : List Wallet) (i : Nat)
    (wallet : Wallet)
    (hsel : Event.getLedgerWallet wallets ∈ (unvote w cmd).trace)
    (hi : w.getLedgerWallet wallets = .ok i) (hw : wallets.get? i = some wallet) :
    cmd.ledger.truthy = true ∧
    (∀ path tx, Event.signTransaction path tx ∈ (unvote w cmd).trace →
      path = "44'/" ++ toString w.netSlip44 ++ "'/" ++ toString i ++ "'/0/0" ∧
      path = "/".intercalate
        ["44'", toString w.netSlip44 ++ "'", toString i ++ "'", "0", "0"] ∧
      tx.senderPublicKey = .str wallet.publicKey ∧ tx.recipientId = .str wallet.address ∧
      tx.signature = none ∧ tx.id = none) ∧
    (∀ tx, Event.postTransaction tx ∈ (unvote w cmd).trace →
      tx.senderPublicKey = .str wallet.publicKey ∧ tx.recipientId = .str wallet.address ∧
      ∃ unsigned sig,
        Event.signTransaction ("44'/" ++ toString w.netSlip44 ++ "'/" ++ toString i ++ "'/0/0")
          unsigned ∈ (unvote w cmd).trace ∧
        w.signTransaction ("44'/" ++ toString w.netSlip44 ++ "'/" ++ toString i ++ "'/0/0")
          unsigned = .ok sig ∧
        tx = withId w (withSignature unsigned sig)) := by
  rcases body_cases w cmd with ⟨m, hG, hb⟩ | ⟨p, s, hG, ⟨m, hC, hb⟩ | ⟨hC, ⟨m, hR, hb⟩ |
    ⟨a, pk, j, hR, hrest⟩⟩⟩
  · exfalso
    simp [mem_unvote_trace, hb, not_mem_gatherInput, Event.stage] at hsel
  · exfalso
    simp [mem_unvote_trace, hb, not_mem_gatherInput, not_mem_connectNetwork, Event.stage]
      at hsel
  · have hl : cmd.ledger.truthy = true := by
      have hmem : Event.getLedgerWallet wallets ∈ (resolveIdentity w cmd p).trace := by
        simpa [mem_unvote_trace, hb, not_mem_gatherInput, not_mem_connectNetwork, Event.stage]
          using hsel
      cases hl : cmd.ledger.truthy
      · simp [resolveIdentity, hl, bind_eq, Run.andThen, Run.emit, Run.ret] at hmem
      · rfl
    refine ⟨hl, ?_, ?_⟩
    · intro path tx h
      simp [mem_unvote_trace, hb, not_mem_gatherInput, not_mem_connectNetwork,
        not_mem_resolveIdentity, Event.stage] at h
    · intro tx h
      simp [mem_unvote_trace, hb, not_mem_gatherInput, not_mem_connectNetwork,
        not_mem_resolveIdentity, Event.stage] at h
  · have hmem : Event.getLedgerWallet wallets ∈ (resolveIdentity w cmd p).trace := by
      rcases hrest with ⟨m, hB, hb⟩ | ⟨d, tx, hB, ⟨m, hK, hb⟩ | ⟨hK, ⟨m, hS, hb⟩ |
        ⟨tx2, hS, hb⟩⟩⟩ <;>
      simpa [mem_unvote_trace, hb, not_mem_gatherInput, not_mem_connectNetwork,
        not_mem_buildTransaction, not_mem_confirmGate, not_mem_ledgerSign, not_mem_submit,
        Event.stage] using hsel
    obtain ⟨hl, rfl, rfl, rfl⟩ := identity_of_selection w cmd p wallets i wallet hmem hi hw
      a pk j hR
    refine ⟨hl, ?_, ?_⟩
    · intro path tx0 h
      have hsign : ∀ tx, Event.signTransaction path tx0 ∈
          (ledgerSign w cmd (.str wallet.publicKey) (.str wallet.address) (.num i) tx).trace →
          path = "44'/" ++ toString w.netSlip44 ++ "'/" ++ toString i ++ "'/0/0" ∧
          path = "/".intercalate
            ["44'", toString w.netSlip44 ++ "'", toString i ++ "'", "0", "0"] ∧
          tx0.senderPublicKey = .str wallet.publicKey ∧
          tx0.recipientId = .str wallet.address ∧ tx0.signature = none ∧ tx0.id = none := by
        intro tx hs
        rcases ledgerSign_cases w cmd (.str wallet.publicKey) (.str wallet.address) (.num i) tx
          with ⟨_, hk⟩ | ⟨_, ⟨m2, _, hk⟩ | ⟨sig, _, hk⟩⟩
        · simp [hk] at hs
        · have : path = derivationPath w.netSlip44 (.num i) ∧
              tx0 = unsignedOf (.str wallet.publicKey) (.str wallet.address) tx := by
            simpa [hk] using hs
          obtain ⟨rfl, rfl⟩ := this
          exact ⟨derivationPath_nat _ _, derivationPath_components _ _, rfl, rfl, rfl, rfl⟩
        · have : path = derivationPath w.netSlip44 (.num i) ∧
              tx0 = unsignedOf (.str wallet.publicKey) (.str wallet.address) tx := by
            simpa [hk] using hs
          obtain ⟨rfl, rfl⟩ := this
          exact ⟨derivationPath_nat _ _, derivationPath_components _ _, rfl, rfl, rfl, rfl⟩
      rcases hrest with ⟨m, hB, hb⟩ | ⟨d, tx, hB, ⟨m, hK, hb⟩ | ⟨hK, ⟨m, hS, hb⟩ |
        ⟨tx2, hS, hb⟩⟩⟩
      · simp [mem_unvote_trace, hb, not_mem_gatherInput, not_mem_connectNetwork,
          not_mem_resolveIdentity, not_mem_buildTransaction, Event.stage] at h
      · simp [mem_unvote_trace, hb, not_mem_gatherInput, not_mem_connectNetwork,
          not_mem_resolveIdentity, not_mem_buildTransaction, not_mem_confirmGate,
          Event.stage] at h
      · refine hsign tx ?_
        simpa [mem_unvote_trace, hb, not_mem_gatherInput, not_mem_connectNetwork,
          not_mem_resolveIdentity, not_mem_buildTransaction, not_mem_confirmGate,
          Event.stage] using h
      · refine hsign tx ?_
        simpa [mem_unvote_trace, hb, not_mem_gatherInput, not_mem_connectNetwork,
          not_mem_resolveIdentity, not_mem_buildTransaction, not_mem_confirmGate,
          not_mem_submit, Event.stage] using h
    · intro tx0 h
      rcases hrest with ⟨m, hB, hb⟩ | ⟨d, tx, hB, ⟨m, hK, hb⟩ | ⟨hK, ⟨m, hS, hb⟩ |
        ⟨tx2, hS, hb⟩⟩⟩
      · simp [mem_unvote_trace, hb, not_mem_gatherInput, not_mem_connectNetwork,
          not_mem_resolveIdentity, not_mem_buildTransaction, Event.stage] at h
      · simp [mem_unvote_trace, hb, not_mem_gatherInput, not_mem_connectNetwork,
          not_mem_resolveIdentity, not_mem_buildTransaction, not_mem_confirmGate,
          Event.stage] at h
      · simp [mem_unvote_trace, hb, not_mem_gatherInput, not_mem_connectNetwork,
          not_mem_resolveIdentity, not_mem_buildTransaction, not_mem_confirmGate,
          not_mem_ledgerSign, Event.stage] at h
      · have hp : Event.postTransaction tx0 ∈ (submit w d tx2).trace := by
          simpa [mem_unvote_trace, hb, not_mem_gatherInput, not_mem_connectNetwork,
            not_mem_resolveIdentity, not_mem_buildTransaction, not_mem_confirmGate,
            not_mem_ledgerSign, Event.stage] using h
        have htx : tx0 = tx2 := by
          rcases submit_cases w d tx2 with ⟨m, _, hs⟩ | ⟨data, _, _, hs⟩ |
            ⟨data, _, _, _, hs⟩ | ⟨data, t, ts, _, _, _, hs⟩ <;> simpa [hs] using hp
        subst htx
        rcases ledgerSign_cases w cmd (.str wallet.publicKey) (.str wallet.address) (.num i) tx
          with ⟨hl2, _⟩ | ⟨_, ⟨m2, _, hk⟩ | ⟨sig, hsig, hk⟩⟩
        · rw [hl] at hl2
          simp at hl2
        · rw [hk] at hS
          simp at hS
        · rw [hk] at hS
          simp only [Except.ok.injEq] at hS
          subst hS
          refine ⟨rfl, rfl,
            unsignedOf (.str wallet.publicKey) (.str wallet.address) tx, sig, ?_, ?_, rfl⟩
          · rw [← derivationPath_nat, mem_unvote_trace, hb, hk]
            simp
          · rw [← derivationPath_nat]
            exact hsig

/-- C6 on the sample Ledger run: the operator selects index 1 of two accounts,
the coin type is 111. -/
theorem C6_ledger_witness :
    (∀ path tx, Event.signTransaction path tx ∈ (unvote sampleWorld ledgerCmd).trace →
      path = "44'/111'/1'/0/0") ∧
    (∀ tx, Event.postTransaction tx ∈ (unvote sampleWorld ledgerCmd).trace →
      tx.senderPublicKey = .str "K1" ∧ tx.recipientId = .str "A1") ∧
    (∃ tx, Event.signTransaction "44'/111'/1'/0/0" tx ∈ (unvote sampleWorld ledgerCmd).trace) ∧
    (∃ tx, Event.postTransaction tx ∈ (unvote sampleWorld ledgerCmd).trace) :=
  have h := C6_ledger_path_and_sender sampleWorld ledgerCmd
    [{ publicKey := "K0", address := "A0" }, { publicKey := "K1", address := "A1" }] 1
    { publicKey := "K1", address := "A1" } (by decide) rfl rfl
  ⟨fun path tx hs => (h.2.1 path tx hs).1,
    fun tx hp => ⟨(h.2.2 tx hp).1, (h.2.2 tx hp).2.1⟩,
    ⟨unsignedOf (.str "K1") (.str "A1") (sampleTx ["-P"]), by decide⟩,
    ⟨withId sampleWorld (withSignature (unsignedOf (.str "K1") (.str "A1") (sampleTx ["-P"]))
      "ledgersig"), by decide⟩⟩

/-! ## C8 and C9: the accepted transaction -/

end Unvote
